import Mathlib

/-!
Verification of the Power BI report builder (`generate_report.py`).

The script builds a nested JSON document (pages, visual containers, queries,
styles), where several fields hold *embedded* JSON: strings produced by
`json.dumps` of a nested structure.  We embed the JSON value space as `JVal`,
the two serialization modes used by the script (`json.dumps(..., ensure_ascii=False)`
compact, and `indent=2`) as `dumps`, a parser modelling `json.loads` on the
emitted fragment, and the builder functions themselves, then prove the
specified properties.
-/

/-- JSON values, covering exactly the fragment the generator emits:
strings, Python ints (all non-negative in this program), Python floats that
are whole numbers (printed `n.0`), booleans, arrays and (insertion-ordered)
objects.  Python ≥ 3.7 dicts preserve insertion order, so an object is an
ordered association list. -/
inductive JVal where
  | jstr  : String → JVal
  | jnat  : Nat → JVal
  | jflt  : Nat → JVal
  | jbool : Bool → JVal
  | jarr  : List JVal → JVal
  | jobj  : List (String × JVal) → JVal

namespace JVal

/-- Decimal digits of `n`, most significant first; fuel-indexed so that the
function is structurally recursive (any fuel above `n` yields the digits). -/
def natCharsAux : Nat → Nat → List Char → List Char
  | 0, _, acc => acc
  | fuel + 1, n, acc =>
    if n < 10 then Nat.digitChar n :: acc
    else natCharsAux fuel (n / 10) (Nat.digitChar (n % 10) :: acc)

/-- Decimal representation of a natural number, as Python prints an `int`. -/
def natChars (n : Nat) : List Char := natCharsAux (n + 1) n []

/-- JSON string escaping as performed by `json.dumps(..., ensure_ascii=False)`
on the characters this program emits: `"` and `\` are escaped, every other
character is passed through verbatim (no character of the program's data is a
control character). -/
def escChar (c : Char) : List Char :=
  if c = '"' ∨ c = '\\' then ['\\', c] else [c]

def escStr (s : List Char) : List Char := s.flatMap escChar

/-- Newline followed by `lvl` spaces: the separator `json.dumps(..., indent=2)`
emits between container items. -/
def nl (lvl : Nat) : List Char := '\n' :: List.replicate lvl ' '

mutual

/-- `json.dumps(v, ensure_ascii=False)` when `ind = none` (compact separators
`", "` and `": "`), and `json.dumps(v, ensure_ascii=False, indent=2)` when
`ind = some lvl` with `lvl` the current indentation width.  Empty containers
are printed `[]` / `{}` in both modes, exactly as CPython's encoder does. -/
def dumps (ind : Option Nat) : JVal → List Char
  | .jstr s => '"' :: (escStr s.data ++ ['"'])
  | .jnat n => natChars n
  | .jflt n => natChars n ++ ['.', '0']
  | .jbool true => ['t', 'r', 'u', 'e']
  | .jbool false => ['f', 'a', 'l', 's', 'e']
  | .jarr [] => ['[', ']']
  | .jarr (x :: xs) =>
    match ind with
    | none => '[' :: (dumps none x ++ dumpsArrTail none xs ++ [']'])
    | some lvl =>
      '[' :: (nl (lvl + 2) ++ dumps (some (lvl + 2)) x ++
        dumpsArrTail (some (lvl + 2)) xs ++ nl lvl ++ [']'])
  | .jobj [] => ['{', '}']
  | .jobj (p :: ps) =>
    match ind with
    | none => '{' :: (dumpsMember none p ++ dumpsObjTail none ps ++ ['}'])
    | some lvl =>
      '{' :: (nl (lvl + 2) ++ dumpsMember (some (lvl + 2)) p ++
        dumpsObjTail (some (lvl + 2)) ps ++ nl lvl ++ ['}'])

/-- Remaining array items, each preceded by the item separator
(`", "` compact, `",\n" ++ indent` indented). -/
def dumpsArrTail (ind : Option Nat) : List JVal → List Char
  | [] => []
  | x :: xs =>
    (match ind with
     | none => [',', ' ']
     | some lvl => ',' :: nl lvl) ++ dumps ind x ++ dumpsArrTail ind xs

/-- One object member: quoted key, `": "`, value. -/
def dumpsMember (ind : Option Nat) (p : String × JVal) : List Char :=
  '"' :: (escStr p.1.data ++ ['"', ':', ' ']) ++ dumps ind p.2

/-- Remaining object members, each preceded by the item separator. -/
def dumpsObjTail (ind : Option Nat) : List (String × JVal) → List Char
  | [] => []
  | p :: ps =>
    (match ind with
     | none => [',', ' ']
     | some lvl => ',' :: nl lvl) ++ dumpsMember ind p ++ dumpsObjTail ind ps

end

/-- String form of a compact dump — `json.dumps(v, ensure_ascii=False)`. -/
def dumpsStr (v : JVal) : String := String.mk (dumps none v)

mutual

/-- Number of nodes of a JSON value (used as parser fuel). -/
def jsize : JVal → Nat
  | .jstr _ => 1
  | .jnat _ => 1
  | .jflt _ => 1
  | .jbool _ => 1
  | .jarr xs => 1 + jsizeArr xs
  | .jobj ps => 1 + jsizeObj ps

def jsizeArr : List JVal → Nat
  | [] => 0
  | x :: xs => 1 + jsize x + jsizeArr xs

def jsizeObj : List (String × JVal) → Nat
  | [] => 0
  | p :: ps => 1 + jsize p.2 + jsizeObj ps

end

/-! ### Constructor-wise unfolding of the serializer and the size measure -/

theorem dumps_jstr (ind : Option Nat) (s : String) :
    dumps ind (.jstr s) = '"' :: (escStr s.data ++ ['"']) := rfl

theorem dumps_jnat (ind : Option Nat) (n : Nat) :
    dumps ind (.jnat n) = natChars n := rfl

theorem dumps_jflt (ind : Option Nat) (n : Nat) :
    dumps ind (.jflt n) = natChars n ++ ['.', '0'] := rfl

theorem dumps_jtrue (ind : Option Nat) :
    dumps ind (.jbool true) = ['t', 'r', 'u', 'e'] := rfl

theorem dumps_jfalse (ind : Option Nat) :
    dumps ind (.jbool false) = ['f', 'a', 'l', 's', 'e'] := rfl

theorem dumps_jarr_nil (ind : Option Nat) : dumps ind (.jarr []) = ['[', ']'] := rfl

theorem dumps_jarr_cons_none (x : JVal) (xs : List JVal) :
    dumps none (.jarr (x :: xs)) =
      '[' :: (dumps none x ++ dumpsArrTail none xs ++ [']']) := rfl

theorem dumps_jarr_cons_some (lvl : Nat) (x : JVal) (xs : List JVal) :
    dumps (some lvl) (.jarr (x :: xs)) =
      '[' :: (nl (lvl + 2) ++ dumps (some (lvl + 2)) x ++
        dumpsArrTail (some (lvl + 2)) xs ++ nl lvl ++ [']']) := rfl

theorem dumps_jobj_nil (ind : Option Nat) : dumps ind (.jobj []) = ['{', '}'] := rfl

theorem dumps_jobj_cons_none (p : String × JVal) (ps : List (String × JVal)) :
    dumps none (.jobj (p :: ps)) =
      '{' :: (dumpsMember none p ++ dumpsObjTail none ps ++ ['}']) := rfl

theorem dumps_jobj_cons_some (lvl : Nat) (p : String × JVal) (ps : List (String × JVal)) :
    dumps (some lvl) (.jobj (p :: ps)) =
      '{' :: (nl (lvl + 2) ++ dumpsMember (some (lvl + 2)) p ++
        dumpsObjTail (some (lvl + 2)) ps ++ nl lvl ++ ['}']) := rfl

theorem dumpsArrTail_nil (ind : Option Nat) : dumpsArrTail ind [] = [] := rfl

theorem dumpsArrTail_cons_none (x : JVal) (xs : List JVal) :
    dumpsArrTail none (x :: xs) =
      [',', ' '] ++ dumps none x ++ dumpsArrTail none xs := rfl

theorem dumpsArrTail_cons_some (lvl : Nat) (x : JVal) (xs : List JVal) :
    dumpsArrTail (some lvl) (x :: xs) =
      (',' :: nl lvl) ++ dumps (some lvl) x ++ dumpsArrTail (some lvl) xs := rfl

theorem dumpsMember_def (ind : Option Nat) (k : String) (v : JVal) :
    dumpsMember ind (k, v) = '"' :: (escStr k.data ++ ['"', ':', ' ']) ++ dumps ind v := rfl

theorem dumpsObjTail_nil (ind : Option Nat) : dumpsObjTail ind [] = [] := rfl

theorem dumpsObjTail_cons_none (p : String × JVal) (ps : List (String × JVal)) :
    dumpsObjTail none (p :: ps) =
      [',', ' '] ++ dumpsMember none p ++ dumpsObjTail none ps := rfl

theorem dumpsObjTail_cons_some (lvl : Nat) (p : String × JVal) (ps : List (String × JVal)) :
    dumpsObjTail (some lvl) (p :: ps) =
      (',' :: nl lvl) ++ dumpsMember (some lvl) p ++ dumpsObjTail (some lvl) ps := rfl

theorem jsize_jstr (s : String) : jsize (.jstr s) = 1 := rfl
theorem jsize_jnat (n : Nat) : jsize (.jnat n) = 1 := rfl
theorem jsize_jflt (n : Nat) : jsize (.jflt n) = 1 := rfl
theorem jsize_jbool (b : Bool) : jsize (.jbool b) = 1 := rfl
theorem jsize_jarr (xs : List JVal) : jsize (.jarr xs) = 1 + jsizeArr xs := rfl
theorem jsize_jobj (ps : List (String × JVal)) : jsize (.jobj ps) = 1 + jsizeObj ps := rfl
theorem jsizeArr_nil : jsizeArr [] = 0 := rfl
theorem jsizeArr_cons (x : JVal) (xs : List JVal) :
    jsizeArr (x :: xs) = 1 + jsize x + jsizeArr xs := rfl
theorem jsizeObj_nil : jsizeObj [] = 0 := rfl
theorem jsizeObj_cons (p : String × JVal) (ps : List (String × JVal)) :
    jsizeObj (p :: ps) = 1 + jsize p.2 + jsizeObj ps := rfl

end JVal

/-! ## Parser — a model of `json.loads` on the fragment the generator emits -/

namespace JVal

/-- Skip the whitespace `json.dumps` may emit (spaces and newlines). -/
def skipWs : List Char → List Char
  | [] => []
  | c :: cs => if c = ' ' ∨ c = '\n' then skipWs cs else c :: cs

/-- Parse the body of a JSON string (the opening quote already consumed),
unescaping `\"` and `\\`, up to the closing quote.  Returns the decoded
characters and the remaining input. -/
def parseStrBody : List Char → Option (List Char × List Char)
  | [] => none
  | c :: cs =>
    if c = '"' then some ([], cs)
    else if c = '\\' then
      match cs with
      | [] => none
      | e :: cs1 =>
        if e = '"' ∨ e = '\\' then
          match parseStrBody cs1 with
          | none => none
          | some (s, r) => some (e :: s, r)
        else none
    else
      match parseStrBody cs with
      | none => none
      | some (s, r) => some (c :: s, r)

def digitVal (c : Char) : Nat := c.toNat - 48

/-- Read a big-endian digit string back into a number. -/
def readDigits (l : List Char) : Nat := l.foldl (fun a c => a * 10 + digitVal c) 0

/-- Parse a number token: a digit run, optionally followed by the fractional
part `.0` (the only fractional part the generator emits). -/
def parseNum (cs : List Char) : Option (JVal × List Char) :=
  let ds := cs.takeWhile Char.isDigit
  let rest := cs.dropWhile Char.isDigit
  if ds.isEmpty then none
  else
    match rest with
    | [] => some (.jnat (readDigits ds), [])
    | c :: r2 =>
      if c = '.' then
        match r2.takeWhile Char.isDigit, r2.dropWhile Char.isDigit with
        | ['0'], r3 => some (.jflt (readDigits ds), r3)
        | _, _ => none
      else some (.jnat (readDigits ds), c :: r2)

/-- Parse one object member (`"key": value`), the input already positioned at
the opening quote of the key; `pv` parses the value. -/
def parseMember (pv : List Char → Option (JVal × List Char)) :
    List Char → Option ((String × JVal) × List Char)
  | [] => none
  | c :: cs =>
    if c = '"' then
      match parseStrBody cs with
      | none => none
      | some (k, r1) =>
        match skipWs r1 with
        | [] => none
        | d :: r2 =>
          if d = ':' then
            match pv r2 with
            | none => none
            | some (v, r3) => some ((String.mk k, v), r3)
          else none
    else none

/-- One step of the value parser: skip leading whitespace, dispatch on the
first character; `pv`/`pat`/`pot` handle the recursive positions. -/
def parseVCore (pv : List Char → Option (JVal × List Char))
    (pat : List Char → Option (List JVal × List Char))
    (pot : List Char → Option (List (String × JVal) × List Char))
    (cs : List Char) : Option (JVal × List Char) :=
  match skipWs cs with
  | [] => none
  | c :: cs1 =>
    if c = '"' then
      match parseStrBody cs1 with
      | none => none
      | some (s, r) => some (.jstr (String.mk s), r)
    else if c = '[' then
      match skipWs cs1 with
      | [] => none
      | d :: cs2 =>
        if d = ']' then some (.jarr [], cs2)
        else
          match pv (d :: cs2) with
          | none => none
          | some (v, r) =>
            match pat r with
            | none => none
            | some (vs, r1) => some (.jarr (v :: vs), r1)
    else if c = '{' then
      match skipWs cs1 with
      | [] => none
      | d :: cs2 =>
        if d = '}' then some (.jobj [], cs2)
        else
          match parseMember pv (d :: cs2) with
          | none => none
          | some (p, r3) =>
            match pot r3 with
            | none => none
            | some (ps, r4) => some (.jobj (p :: ps), r4)
    else if c = 't' then
      match cs1 with
      | 'r' :: 'u' :: 'e' :: r => some (.jbool true, r)
      | _ => none
    else if c = 'f' then
      match cs1 with
      | 'a' :: 'l' :: 's' :: 'e' :: r => some (.jbool false, r)
      | _ => none
    else if c.isDigit then parseNum (c :: cs1)
    else none

/-- One step after an array item: `,` and a further item, or `]` to close. -/
def parseArrTailCore (pv : List Char → Option (JVal × List Char))
    (pat : List Char → Option (List JVal × List Char))
    (cs : List Char) : Option (List JVal × List Char) :=
  match skipWs cs with
  | [] => none
  | c :: r =>
    if c = ',' then
      match pv r with
      | none => none
      | some (v, r1) =>
        match pat r1 with
        | none => none
        | some (vs, r2) => some (v :: vs, r2)
    else if c = ']' then some ([], r)
    else none

/-- One step after an object member: `,` and a further member, or `}`. -/
def parseObjTailCore (pv : List Char → Option (JVal × List Char))
    (pot : List Char → Option (List (String × JVal) × List Char))
    (cs : List Char) : Option (List (String × JVal) × List Char) :=
  match skipWs cs with
  | [] => none
  | c :: r =>
    if c = ',' then
      match parseMember pv (skipWs r) with
      | none => none
      | some (p, r1) =>
        match pot r1 with
        | none => none
        | some (ps, r2) => some (p :: ps, r2)
    else if c = '}' then some ([], r)
    else none

mutual

/-- Fuel-indexed JSON value parser. -/
def parseV : Nat → List Char → Option (JVal × List Char)
  | 0, _ => none
  | n + 1, cs => parseVCore (parseV n) (parseArrTail n) (parseObjTail n) cs

/-- Fuel-indexed parser for what follows an array item. -/
def parseArrTail : Nat → List Char → Option (List JVal × List Char)
  | 0, _ => none
  | n + 1, cs => parseArrTailCore (parseV n) (parseArrTail n) cs

/-- Fuel-indexed parser for what follows an object member. -/
def parseObjTail : Nat → List Char → Option (List (String × JVal) × List Char)
  | 0, _ => none
  | n + 1, cs => parseObjTailCore (parseV n) (parseObjTail n) cs

end

theorem parseV_zero (cs : List Char) : parseV 0 cs = none := rfl

theorem parseV_succ (n : Nat) (cs : List Char) :
    parseV (n + 1) cs = parseVCore (parseV n) (parseArrTail n) (parseObjTail n) cs := rfl

theorem parseArrTail_succ (n : Nat) (cs : List Char) :
    parseArrTail (n + 1) cs = parseArrTailCore (parseV n) (parseArrTail n) cs := rfl

theorem parseObjTail_succ (n : Nat) (cs : List Char) :
    parseObjTail (n + 1) cs = parseObjTailCore (parseV n) (parseObjTail n) cs := rfl

/-- Model of `json.loads s`: parse one value and require that nothing but
whitespace remains.  The fuel `s.length + 1` dominates the node count of any
value serialized into `s` (each node of a dump occupies at least one
character). -/
def parseTop (s : String) : Option JVal :=
  match parseV (s.data.length + 1) s.data with
  | some (v, r) => if (skipWs r).isEmpty then some v else none
  | none => none

end JVal

/-! ## Serialization / parsing lemmas -/

namespace JVal

/-- The characters `json.dumps` inserts as layout whitespace. -/
def WsOnly (l : List Char) : Prop := ∀ c ∈ l, c = ' ' ∨ c = '\n'

theorem wsOnly_nil : WsOnly [] := by intro c hc; cases hc

theorem wsOnly_nl (lvl : Nat) : WsOnly (nl lvl) := by
  intro c hc
  rcases List.mem_cons.mp hc with h | h
  · exact Or.inr h
  · exact Or.inl (List.eq_of_mem_replicate h)

theorem skipWs_append (ws cs : List Char) (h : WsOnly ws) :
    skipWs (ws ++ cs) = skipWs cs := by
  induction ws with
  | nil => rfl
  | cons c t ih =>
    have hc : c = ' ' ∨ c = '\n' := h c (List.mem_cons_self ..)
    simp only [List.cons_append, skipWs, if_pos hc]
    exact ih fun d hd => h d (List.mem_cons_of_mem _ hd)

theorem skipWs_cons (c : Char) (cs : List Char) (h : ¬(c = ' ' ∨ c = '\n')) :
    skipWs (c :: cs) = c :: cs := by
  simp only [skipWs, if_neg h]

/-- The string-body parser undoes the escaping the serializer applies. -/
theorem parseStrBody_escStr (s rest : List Char) :
    parseStrBody (escStr s ++ '"' :: rest) = some (s, rest) := by
  induction s with
  | nil =>
    show parseStrBody ('"' :: rest) = some ([], rest)
    rw [parseStrBody.eq_def]
    simp
  | cons c cs ih =>
    by_cases hc : c = '"' ∨ c = '\\'
    · have he : escStr (c :: cs) = '\\' :: c :: escStr cs := by
        simp [escStr, escChar, if_pos hc]
      rw [he, List.cons_append, List.cons_append]
      rw [parseStrBody.eq_def]
      simp [hc, ih]
    · have he : escStr (c :: cs) = c :: escStr cs := by
        simp [escStr, escChar, if_neg hc]
      rw [he, List.cons_append]
      have h1 : ¬ c = '"' := fun h => hc (Or.inl h)
      have h2 : ¬ c = '\\' := fun h => hc (Or.inr h)
      rw [parseStrBody.eq_def]
      simp [h1, h2, ih]

/-! ### Decimal printing and reading -/

theorem natCharsAux_succ_lt {n : Nat} (h : n < 10) (fuel : Nat) (acc : List Char) :
    natCharsAux (fuel + 1) n acc = Nat.digitChar n :: acc := by
  rw [natCharsAux, if_pos h]

theorem natCharsAux_succ_ge {n : Nat} (h : ¬ n < 10) (fuel : Nat) (acc : List Char) :
    natCharsAux (fuel + 1) n acc =
      natCharsAux fuel (n / 10) (Nat.digitChar (n % 10) :: acc) := by
  rw [natCharsAux, if_neg h]

theorem natCharsAux_fuel (n : Nat) :
    ∀ f1 f2 : Nat, n < f1 → n < f2 → ∀ acc : List Char,
      natCharsAux f1 n acc = natCharsAux f2 n acc := by
  induction n using Nat.strong_induction_on with
  | _ n ih =>
    intro f1 f2 h1 h2 acc
    cases f1 with
    | zero => omega
    | succ g1 =>
      cases f2 with
      | zero => omega
      | succ g2 =>
        by_cases h : n < 10
        · rw [natCharsAux_succ_lt h, natCharsAux_succ_lt h]
        · rw [natCharsAux_succ_ge h, natCharsAux_succ_ge h]
          exact ih (n / 10) (Nat.div_lt_self (by omega) (by omega)) g1 g2
            (by have := Nat.div_lt_self (show 0 < n by omega)
                  (show 1 < 10 by omega); omega)
            (by have := Nat.div_lt_self (show 0 < n by omega)
                  (show 1 < 10 by omega); omega) _

theorem natCharsAux_append (n : Nat) :
    ∀ f : Nat, n < f → ∀ acc : List Char,
      natCharsAux f n acc = natCharsAux f n [] ++ acc := by
  induction n using Nat.strong_induction_on with
  | _ n ih =>
    intro f hf acc
    cases f with
    | zero => omega
    | succ g =>
      by_cases h : n < 10
      · rw [natCharsAux_succ_lt h, natCharsAux_succ_lt h]; rfl
      · rw [natCharsAux_succ_ge h, natCharsAux_succ_ge h]
        have hdlt : n / 10 < n := Nat.div_lt_self (by omega) (by omega)
        have hdg : n / 10 < g := by
          have h26 : n / 10 ≤ n / 2 := Nat.div_le_div_left (by omega) (by omega)
          have := Nat.div_le_self n 2
          have := Nat.div_lt_self (show 0 < n by omega) (show 1 < 2 by omega)
          omega
        rw [ih _ hdlt g hdg (Nat.digitChar (n % 10) :: acc),
          ih _ hdlt g hdg [Nat.digitChar (n % 10)]]
        simp

theorem natChars_lt10 (n : Nat) (h : n < 10) :
    natChars n = [Nat.digitChar n] := by
  rw [natChars, natCharsAux_succ_lt h]

theorem natChars_ge10 (n : Nat) (h : ¬ n < 10) :
    natChars n = natChars (n / 10) ++ [Nat.digitChar (n % 10)] := by
  have hdlt : n / 10 < n := Nat.div_lt_self (by omega) (by omega)
  rw [natChars, natCharsAux_succ_ge h, natChars,
    natCharsAux_fuel (n / 10) n (n / 10 + 1) (by omega) (by omega),
    natCharsAux_append (n / 10) (n / 10 + 1) (by omega)]

theorem digitChar_isDigit {d : Nat} (h : d < 10) :
    (Nat.digitChar d).isDigit = true := by
  interval_cases d <;> decide

theorem digitVal_digitChar {d : Nat} (h : d < 10) :
    digitVal (Nat.digitChar d) = d := by
  interval_cases d <;> decide

theorem natChars_ne_nil (n : Nat) : natChars n ≠ [] := by
  by_cases h : n < 10
  · rw [natChars_lt10 n h]; simp
  · rw [natChars_ge10 n h]; simp

theorem natChars_all_digits (n : Nat) : ∀ c ∈ natChars n, c.isDigit = true := by
  induction n using Nat.strong_induction_on with
  | _ n ih =>
    by_cases h : n < 10
    · rw [natChars_lt10 n h]
      intro c hc
      rw [List.mem_singleton] at hc
      subst hc
      exact digitChar_isDigit h
    · rw [natChars_ge10 n h]
      intro c hc
      rcases List.mem_append.mp hc with hc | hc
      · exact ih _ (Nat.div_lt_self (by omega) (by omega)) c hc
      · rw [List.mem_singleton] at hc
        subst hc
        exact digitChar_isDigit (Nat.mod_lt _ (by omega))

theorem readDigits_append1 (l : List Char) (c : Char) :
    readDigits (l ++ [c]) = 10 * readDigits l + digitVal c := by
  simp [readDigits, List.foldl_append]
  omega

theorem readDigits_natChars (n : Nat) : readDigits (natChars n) = n := by
  induction n using Nat.strong_induction_on with
  | _ n ih =>
    by_cases h : n < 10
    · rw [natChars_lt10 n h]
      simp [readDigits, digitVal_digitChar h]
    · rw [natChars_ge10 n h, readDigits_append1,
        ih _ (Nat.div_lt_self (by omega) (by omega)),
        digitVal_digitChar (Nat.mod_lt _ (by omega))]
      omega

/-! ### Digit runs and the number parser -/

/-- The head of `l` (if any) does not satisfy `p`. -/
def HeadNot (p : Char → Bool) : List Char → Prop
  | [] => True
  | c :: _ => p c = false

/-- What may legally follow a serialized number: the remaining input must not
begin with a digit or a decimal point, or the number parser would consume
part of it. -/
def NumSafe : List Char → Prop
  | [] => True
  | c :: _ => c.isDigit = false ∧ c ≠ '.'

theorem takeWhile_all_append (p : Char → Bool) (l r : List Char)
    (hl : ∀ c ∈ l, p c = true) (hr : HeadNot p r) :
    (l ++ r).takeWhile p = l ∧ (l ++ r).dropWhile p = r := by
  induction l with
  | nil =>
    cases r with
    | nil => simp
    | cons c t =>
      simp only [HeadNot] at hr
      simp [List.takeWhile, List.dropWhile, hr]
  | cons c t ih =>
    have hc : p c = true := hl c (List.mem_cons_self ..)
    have := ih fun d hd => hl d (List.mem_cons_of_mem _ hd)
    simp [List.takeWhile, List.dropWhile, hc, this.1, this.2]

theorem parseNum_jnat (n : Nat) (rest : List Char) (h : NumSafe rest) :
    parseNum (natChars n ++ rest) = some (.jnat n, rest) := by
  have hr : HeadNot Char.isDigit rest := by
    cases rest with
    | nil => trivial
    | cons c t => exact h.1
  have hspan := takeWhile_all_append Char.isDigit (natChars n) rest
    (natChars_all_digits n) hr
  rw [parseNum]
  simp only [hspan.1, hspan.2, List.isEmpty_eq_true]
  rw [if_neg (natChars_ne_nil n)]
  cases rest with
  | nil => simp [readDigits_natChars]
  | cons c t =>
    have : ¬ c = '.' := h.2
    simp [this, readDigits_natChars]

theorem parseNum_jflt (n : Nat) (rest : List Char) (h : NumSafe rest) :
    parseNum (natChars n ++ '.' :: '0' :: rest) = some (.jflt n, rest) := by
  have hr : HeadNot Char.isDigit ('.' :: '0' :: rest) := by
    show ('.').isDigit = false
    decide
  have hrest : HeadNot Char.isDigit rest := by
    cases rest with
    | nil => trivial
    | cons c t => exact h.1
  have hspan := takeWhile_all_append Char.isDigit (natChars n)
    ('.' :: '0' :: rest) (natChars_all_digits n) hr
  have hspan0 := takeWhile_all_append Char.isDigit ['0'] rest
    (by intro c hc; rw [List.mem_singleton] at hc; subst hc; decide) hrest
  rw [parseNum]
  simp only [hspan.1, hspan.2, List.isEmpty_eq_true]
  rw [if_neg (natChars_ne_nil n)]
  have h0 : ('0' :: rest).takeWhile Char.isDigit = ['0'] := hspan0.1
  have h1 : ('0' :: rest).dropWhile Char.isDigit = rest := hspan0.2
  simp [h0, h1, readDigits_natChars]

theorem string_mk_data (s : String) : String.mk s.data = s := rfl

theorem jsize_pos (v : JVal) : 1 ≤ jsize v := by
  cases v <;> simp only [jsize_jstr, jsize_jnat, jsize_jflt, jsize_jbool,
    jsize_jarr, jsize_jobj] <;> omega

/-- A digit character is none of the parser's structural dispatch characters. -/
theorem isDigit_ne (c : Char) (h : c.isDigit = true) :
    c ≠ '"' ∧ c ≠ '[' ∧ c ≠ '{' ∧ c ≠ 't' ∧ c ≠ 'f' ∧
    c ≠ ' ' ∧ c ≠ '\n' ∧ c ≠ ']' ∧ c ≠ '}' ∧ c ≠ ',' := by
  refine ⟨?_, ?_, ?_, ?_, ?_, ?_, ?_, ?_, ?_, ?_⟩ <;>
    (intro hq; subst hq; revert h; decide)

/-- Every serialized value starts with a non-whitespace character that is
not a closing bracket. -/
theorem dumps_head (ind : Option Nat) (v : JVal) :
    ∃ c cs, dumps ind v = c :: cs ∧ ¬(c = ' ' ∨ c = '\n') ∧
      c ≠ ']' ∧ c ≠ '}' := by
  cases v with
  | jstr s =>
    exact ⟨'"', escStr s.data ++ ['"'], rfl, by decide, by decide, by decide⟩
  | jnat n =>
    obtain ⟨c, cs, hc⟩ : ∃ c cs, natChars n = c :: cs := by
      cases hn : natChars n with
      | nil => exact absurd hn (natChars_ne_nil n)
      | cons c cs => exact ⟨c, cs, rfl⟩
    have hd : c.isDigit = true :=
      natChars_all_digits n c (by rw [hc]; exact List.mem_cons_self ..)
    have hne := isDigit_ne c hd
    refine ⟨c, cs, ?_, ?_, hne.2.2.2.2.2.2.2.1, hne.2.2.2.2.2.2.2.2.1⟩
    · rw [dumps_jnat]; exact hc
    · rintro (h | h)
      · exact hne.2.2.2.2.2.1 h
      · exact hne.2.2.2.2.2.2.1 h
  | jflt n =>
    obtain ⟨c, cs, hc⟩ : ∃ c cs, natChars n = c :: cs := by
      cases hn : natChars n with
      | nil => exact absurd hn (natChars_ne_nil n)
      | cons c cs => exact ⟨c, cs, rfl⟩
    have hd : c.isDigit = true :=
      natChars_all_digits n c (by rw [hc]; exact List.mem_cons_self ..)
    have hne := isDigit_ne c hd
    refine ⟨c, cs ++ ['.', '0'], ?_, ?_, hne.2.2.2.2.2.2.2.1,
      hne.2.2.2.2.2.2.2.2.1⟩
    · rw [dumps_jflt, hc]; rfl
    · rintro (h | h)
      · exact hne.2.2.2.2.2.1 h
      · exact hne.2.2.2.2.2.2.1 h
  | jbool b =>
    cases b with
    | true =>
      exact ⟨'t', ['r', 'u', 'e'], rfl, by decide, by decide, by decide⟩
    | false =>
      exact ⟨'f', ['a', 'l', 's', 'e'], rfl, by decide, by decide, by decide⟩
  | jarr xs =>
    cases xs with
    | nil =>
      exact ⟨'[', [']'], rfl, by decide, by decide, by decide⟩
    | cons x t =>
      cases ind with
      | none =>
        exact ⟨'[', dumps none x ++ dumpsArrTail none t ++ [']'],
          rfl, by decide, by decide, by decide⟩
      | some lvl =>
        exact ⟨'[', nl (lvl + 2) ++ dumps (some (lvl + 2)) x ++
            dumpsArrTail (some (lvl + 2)) t ++ nl lvl ++ [']'],
          rfl, by decide, by decide, by decide⟩
  | jobj ps =>
    cases ps with
    | nil =>
      exact ⟨'{', ['}'], rfl, by decide, by decide, by decide⟩
    | cons p t =>
      cases ind with
      | none =>
        exact ⟨'{', dumpsMember none p ++ dumpsObjTail none t ++ ['}'],
          rfl, by decide, by decide, by decide⟩
      | some lvl =>
        exact ⟨'{', nl (lvl + 2) ++ dumpsMember (some (lvl + 2)) p ++
            dumpsObjTail (some (lvl + 2)) t ++ nl lvl ++ ['}'],
          rfl, by decide, by decide, by decide⟩

/-- The parser is insensitive to leading layout whitespace. -/
theorem parseV_ws (n : Nat) (ws cs : List Char) (h : WsOnly ws) :
    parseV n (ws ++ cs) = parseV n cs := by
  cases n with
  | zero => rfl
  | succ n =>
    rw [parseV_succ, parseV_succ, parseVCore, parseVCore,
      skipWs_append ws cs h]

theorem numSafe_of_head (c : Char) (r : List Char)
    (h : c = ',' ∨ c = '\n' ∨ c = ']' ∨ c = '}' ∨ c = ' ') :
    NumSafe (c :: r) := by
  rcases h with h | h | h | h | h <;> subst h <;> exact ⟨by decide, by decide⟩

/-- What follows an array item in serialized output is number-safe. -/
theorem numSafe_arrTail (ind : Option Nat) (xs : List JVal) (ws rest : List Char)
    (hws : WsOnly ws) :
    NumSafe (dumpsArrTail ind xs ++ (ws ++ ']' :: rest)) := by
  cases xs with
  | nil =>
    rw [dumpsArrTail_nil, List.nil_append]
    cases ws with
    | nil => exact numSafe_of_head ']' rest (by tauto)
    | cons w t =>
      rcases hws w (List.mem_cons_self ..) with h | h <;> subst h <;>
        exact numSafe_of_head _ _ (by tauto)
  | cons x t =>
    cases ind with
    | none =>
      rw [dumpsArrTail_cons_none]
      simp only [List.cons_append, List.append_assoc, List.nil_append]
      exact numSafe_of_head ',' _ (by tauto)
    | some lvl =>
      rw [dumpsArrTail_cons_some]
      simp only [List.cons_append, List.append_assoc, List.nil_append]
      exact numSafe_of_head ',' _ (by tauto)

/-- What follows an object member in serialized output is number-safe. -/
theorem numSafe_objTail (ind : Option Nat) (ps : List (String × JVal))
    (ws rest : List Char) (hws : WsOnly ws) :
    NumSafe (dumpsObjTail ind ps ++ (ws ++ '}' :: rest)) := by
  cases ps with
  | nil =>
    rw [dumpsObjTail_nil, List.nil_append]
    cases ws with
    | nil => exact numSafe_of_head '}' rest (by tauto)
    | cons w t =>
      rcases hws w (List.mem_cons_self ..) with h | h <;> subst h <;>
        exact numSafe_of_head _ _ (by tauto)
  | cons p t =>
    cases ind with
    | none =>
      rw [dumpsObjTail_cons_none]
      simp only [List.cons_append, List.append_assoc, List.nil_append]
      exact numSafe_of_head ',' _ (by tauto)
    | some lvl =>
      rw [dumpsObjTail_cons_some]
      simp only [List.cons_append, List.append_assoc, List.nil_append]
      exact numSafe_of_head ',' _ (by tauto)

/-- Dropping a single leading whitespace character before parsing. -/
theorem parseV_ws1 (n : Nat) (c : Char) (cs : List Char)
    (h : c = ' ' ∨ c = '
') :
    parseV n (c :: cs) = parseV n cs := by
  have hw : WsOnly [c] := by
    intro d hd; rw [List.mem_singleton] at hd; subst hd; exact h
  have := parseV_ws n [c] cs hw
  simpa using this

theorem skipWs_cons_ws (c : Char) (cs : List Char) (h : c = ' ' ∨ c = '\n') :
    skipWs (c :: cs) = skipWs cs := by
  simp only [skipWs, if_pos h]

/-- Parsing one serialized object member (in exploded character form) with
value parser `parseV n`. -/
theorem parseMember_dumps (n : Nat) (ind : Option Nat) (k : String) (v : JVal)
    (rest : List Char)
    (hv : parseV n (dumps ind v ++ rest) = some (v, rest)) :
    parseMember (parseV n)
      ('"' :: (escStr k.data ++ '"' :: ':' :: ' ' :: (dumps ind v ++ rest))) =
      some ((k, v), rest) := by
  rw [parseMember]
  rw [if_pos rfl]
  rw [parseStrBody_escStr]
  dsimp only
  rw [skipWs_cons ':' _ (by decide)]
  dsimp only
  rw [if_pos rfl, parseV_ws1 n ' ' _ (Or.inl rfl), hv, string_mk_data]

/-- Round-trip at every fuel level: the parser recovers exactly the value the
serializer emitted, in both serialization modes, leaving trailing input
untouched. -/
theorem parse_dumps_all (n : Nat) :
    (∀ (v : JVal) (ind : Option Nat) (rest : List Char),
        jsize v ≤ n → NumSafe rest →
        parseV n (dumps ind v ++ rest) = some (v, rest)) ∧
    (∀ (xs : List JVal) (ind : Option Nat) (ws rest : List Char),
        jsizeArr xs < n → WsOnly ws →
        parseArrTail n (dumpsArrTail ind xs ++ (ws ++ ']' :: rest)) =
          some (xs, rest)) ∧
    (∀ (ps : List (String × JVal)) (ind : Option Nat) (ws rest : List Char),
        jsizeObj ps < n → WsOnly ws →
        parseObjTail n (dumpsObjTail ind ps ++ (ws ++ '}' :: rest)) =
          some (ps, rest)) := by
  induction n with
  | zero =>
    refine ⟨fun v _ _ h _ => absurd h (by have := jsize_pos v; omega),
      fun _ _ _ _ h _ => by omega, fun _ _ _ _ h _ => by omega⟩
  | succ n ih =>
    obtain ⟨ihP, ihQ, ihR⟩ := ih
    refine ⟨?_, ?_, ?_⟩
    · intro v ind rest hsz hsafe
      cases v with
      | jstr s =>
        rw [dumps_jstr]
        simp only [List.cons_append, List.append_assoc, List.singleton_append,
          List.nil_append]
        rw [parseV_succ]
        simp only [parseVCore]
        rw [skipWs_cons '"' _ (by decide)]
        dsimp only
        rw [if_pos rfl, parseStrBody_escStr]
      | jnat m =>
        obtain ⟨c, cs, hnc⟩ : ∃ c cs, natChars m = c :: cs := by
          cases hn : natChars m with
          | nil => exact absurd hn (natChars_ne_nil m)
          | cons c cs => exact ⟨c, cs, rfl⟩
        have hcd : c.isDigit = true :=
          natChars_all_digits m c (by rw [hnc]; exact List.mem_cons_self ..)
        have hne := isDigit_ne c hcd
        have hws : ¬(c = ' ' ∨ c = '\n') := fun h =>
          h.elim hne.2.2.2.2.2.1 hne.2.2.2.2.2.2.1
        rw [dumps_jnat, hnc]
        simp only [List.cons_append]
        rw [parseV_succ]
        simp only [parseVCore]
        rw [skipWs_cons c _ hws]
        dsimp only
        rw [if_neg hne.1, if_neg hne.2.1, if_neg hne.2.2.1, if_neg hne.2.2.2.1,
          if_neg hne.2.2.2.2.1, if_pos hcd]
        have hfold : c :: (cs ++ rest) = natChars m ++ rest := by rw [hnc]; rfl
        rw [hfold, parseNum_jnat m rest hsafe]
      | jflt m =>
        obtain ⟨c, cs, hnc⟩ : ∃ c cs, natChars m = c :: cs := by
          cases hn : natChars m with
          | nil => exact absurd hn (natChars_ne_nil m)
          | cons c cs => exact ⟨c, cs, rfl⟩
        have hcd : c.isDigit = true :=
          natChars_all_digits m c (by rw [hnc]; exact List.mem_cons_self ..)
        have hne := isDigit_ne c hcd
        have hws : ¬(c = ' ' ∨ c = '\n') := fun h =>
          h.elim hne.2.2.2.2.2.1 hne.2.2.2.2.2.2.1
        rw [dumps_jflt, hnc]
        simp only [List.cons_append, List.append_assoc, List.nil_append]
        rw [parseV_succ]
        simp only [parseVCore]
        rw [skipWs_cons c _ hws]
        dsimp only
        rw [if_neg hne.1, if_neg hne.2.1, if_neg hne.2.2.1, if_neg hne.2.2.2.1,
          if_neg hne.2.2.2.2.1, if_pos hcd]
        have hfold : c :: (cs ++ '.' :: '0' :: rest) =
            natChars m ++ '.' :: '0' :: rest := by rw [hnc]; rfl
        rw [hfold, parseNum_jflt m rest hsafe]
      | jbool b =>
        cases b with
        | true =>
          rw [dumps_jtrue]
          simp only [List.cons_append, List.nil_append]
          rw [parseV_succ]
          simp only [parseVCore]
          rw [skipWs_cons 't' _ (by decide)]
          simp
        | false =>
          rw [dumps_jfalse]
          simp only [List.cons_append, List.nil_append]
          rw [parseV_succ]
          simp only [parseVCore]
          rw [skipWs_cons 'f' _ (by decide)]
          simp
      | jarr xs =>
        cases xs with
        | nil =>
          rw [dumps_jarr_nil]
          simp only [List.cons_append, List.nil_append]
          rw [parseV_succ]
          simp only [parseVCore]
          rw [skipWs_cons '[' _ (by decide)]
          dsimp only
          rw [if_neg (by decide : ¬('[' = '"')), if_pos rfl,
            skipWs_cons ']' _ (by decide)]
          dsimp only
          rw [if_pos rfl]
        | cons x t =>
          rw [jsize_jarr, jsizeArr_cons] at hsz
          have hx1 := jsize_pos x
          cases ind with
          | none =>
            rw [dumps_jarr_cons_none]
            simp only [List.cons_append, List.append_assoc, List.singleton_append,
              List.nil_append]
            rw [parseV_succ]
            simp only [parseVCore]
            rw [skipWs_cons '[' _ (by decide)]
            dsimp only
            rw [if_neg (by decide : ¬('[' = '"')), if_pos rfl]
            obtain ⟨c, cs, hd, hnws, hnb, hnc2⟩ := dumps_head none x
            rw [hd]
            simp only [List.cons_append]
            rw [skipWs_cons c _ hnws]
            dsimp only
            rw [if_neg hnb]
            have hns : NumSafe (dumpsArrTail none t ++ ']' :: rest) := by
              have h0 := numSafe_arrTail none t [] rest wsOnly_nil
              rwa [List.nil_append] at h0
            have hpx : parseV n
                (dumps none x ++ (dumpsArrTail none t ++ ']' :: rest)) =
                some (x, dumpsArrTail none t ++ ']' :: rest) :=
              ihP x none _ (by omega) hns
            rw [hd] at hpx
            simp only [List.cons_append] at hpx
            rw [hpx]
            dsimp only
            have hq := ihQ t none [] rest (by omega) wsOnly_nil
            rw [List.nil_append] at hq
            rw [hq]
          | some lvl =>
            rw [dumps_jarr_cons_some]
            simp only [List.cons_append, List.append_assoc, List.singleton_append,
              List.nil_append]
            rw [parseV_succ]
            simp only [parseVCore]
            rw [skipWs_cons '[' _ (by decide)]
            dsimp only
            rw [if_neg (by decide : ¬('[' = '"')), if_pos rfl,
              skipWs_append _ _ (wsOnly_nl (lvl + 2))]
            obtain ⟨c, cs, hd, hnws, hnb, hnc2⟩ := dumps_head (some (lvl + 2)) x
            rw [hd]
            simp only [List.cons_append]
            rw [skipWs_cons c _ hnws]
            dsimp only
            rw [if_neg hnb]
            have hns := numSafe_arrTail (some (lvl + 2)) t (nl lvl) rest
              (wsOnly_nl lvl)
            have hpx := ihP x (some (lvl + 2)) _ (by omega) hns
            rw [hd] at hpx
            simp only [List.cons_append] at hpx
            rw [hpx]
            dsimp only
            rw [ihQ t (some (lvl + 2)) (nl lvl) rest (by omega) (wsOnly_nl lvl)]
      | jobj ps =>
        cases ps with
        | nil =>
          rw [dumps_jobj_nil]
          simp only [List.cons_append, List.nil_append]
          rw [parseV_succ]
          simp only [parseVCore]
          rw [skipWs_cons '{' _ (by decide)]
          dsimp only
          rw [if_neg (by decide : ¬('{' = '"')), if_neg (by decide : ¬('{' = '[')),
            if_pos rfl, skipWs_cons '}' _ (by decide)]
          dsimp only
          rw [if_pos rfl]
        | cons p t =>
          obtain ⟨k, v⟩ := p
          rw [jsize_jobj, jsizeObj_cons] at hsz
          dsimp only at hsz
          have hv1 := jsize_pos v
          cases ind with
          | none =>
            rw [dumps_jobj_cons_none, dumpsMember_def]
            simp only [List.cons_append, List.append_assoc,
              List.singleton_append, List.nil_append]
            rw [parseV_succ]
            simp only [parseVCore]
            rw [skipWs_cons '{' _ (by decide)]
            dsimp only
            rw [if_neg (by decide : ¬('{' = '"')),
              if_neg (by decide : ¬('{' = '[')), if_pos rfl,
              skipWs_cons '"' _ (by decide)]
            dsimp only
            rw [if_neg (by decide : ¬('"' = '}'))]
            have hns : NumSafe (dumpsObjTail none t ++ '}' :: rest) := by
              have h0 := numSafe_objTail none t [] rest wsOnly_nil
              rwa [List.nil_append] at h0
            rw [parseMember_dumps n none k v _ (ihP v none _ (by omega) hns)]
            dsimp only
            have hr := ihR t none [] rest (by omega) wsOnly_nil
            rw [List.nil_append] at hr
            rw [hr]
          | some lvl =>
            rw [dumps_jobj_cons_some, dumpsMember_def]
            simp only [List.cons_append, List.append_assoc,
              List.singleton_append, List.nil_append]
            rw [parseV_succ]
            simp only [parseVCore]
            rw [skipWs_cons '{' _ (by decide)]
            dsimp only
            rw [if_neg (by decide : ¬('{' = '"')),
              if_neg (by decide : ¬('{' = '[')), if_pos rfl,
              skipWs_append _ _ (wsOnly_nl (lvl + 2)),
              skipWs_cons '"' _ (by decide)]
            dsimp only
            rw [if_neg (by decide : ¬('"' = '}'))]
            have hns := numSafe_objTail (some (lvl + 2)) t (nl lvl) rest
              (wsOnly_nl lvl)
            rw [parseMember_dumps n (some (lvl + 2)) k v _
              (ihP v (some (lvl + 2)) _ (by omega) hns)]
            dsimp only
            rw [ihR t (some (lvl + 2)) (nl lvl) rest (by omega) (wsOnly_nl lvl)]
    · intro xs ind ws rest hsz hws
      cases xs with
      | nil =>
        rw [dumpsArrTail_nil, List.nil_append, parseArrTail_succ]
        simp only [parseArrTailCore]
        rw [skipWs_append ws _ hws, skipWs_cons ']' _ (by decide)]
        dsimp only
        rw [if_neg (by decide : ¬(']' = ',')), if_pos rfl]
      | cons x t =>
        rw [jsizeArr_cons] at hsz
        have hx1 := jsize_pos x
        cases ind with
        | none =>
          rw [dumpsArrTail_cons_none]
          simp only [List.cons_append, List.append_assoc, List.nil_append]
          rw [parseArrTail_succ]
          simp only [parseArrTailCore]
          rw [skipWs_cons ',' _ (by decide)]
          dsimp only
          rw [if_pos rfl, parseV_ws1 n ' ' _ (Or.inl rfl)]
          have hns := numSafe_arrTail none t ws rest hws
          rw [ihP x none _ (by omega) hns]
          dsimp only
          rw [ihQ t none ws rest (by omega) hws]
        | some lvl =>
          rw [dumpsArrTail_cons_some]
          simp only [List.cons_append, List.append_assoc, List.nil_append]
          rw [parseArrTail_succ]
          simp only [parseArrTailCore]
          rw [skipWs_cons ',' _ (by decide)]
          dsimp only
          rw [if_pos rfl, parseV_ws n (nl lvl) _ (wsOnly_nl lvl)]
          have hns := numSafe_arrTail (some lvl) t ws rest hws
          rw [ihP x (some lvl) _ (by omega) hns]
          dsimp only
          rw [ihQ t (some lvl) ws rest (by omega) hws]
    · intro ps ind ws rest hsz hws
      cases ps with
      | nil =>
        rw [dumpsObjTail_nil, List.nil_append, parseObjTail_succ]
        simp only [parseObjTailCore]
        rw [skipWs_append ws _ hws, skipWs_cons '}' _ (by decide)]
        dsimp only
        rw [if_neg (by decide : ¬('}' = ',')), if_pos rfl]
      | cons p t =>
        obtain ⟨k, v⟩ := p
        rw [jsizeObj_cons] at hsz
        dsimp only at hsz
        have hv1 := jsize_pos v
        cases ind with
        | none =>
          rw [dumpsObjTail_cons_none, dumpsMember_def]
          simp only [List.cons_append, List.append_assoc, List.nil_append]
          rw [parseObjTail_succ]
          simp only [parseObjTailCore]
          rw [skipWs_cons ',' _ (by decide)]
          dsimp only
          rw [if_pos rfl, skipWs_cons_ws ' ' _ (Or.inl rfl),
            skipWs_cons '"' _ (by decide)]
          have hns := numSafe_objTail none t ws rest hws
          rw [parseMember_dumps n none k v _ (ihP v none _ (by omega) hns)]
          dsimp only
          rw [ihR t none ws rest (by omega) hws]
        | some lvl =>
          rw [dumpsObjTail_cons_some, dumpsMember_def]
          simp only [List.cons_append, List.append_assoc, List.nil_append]
          rw [parseObjTail_succ]
          simp only [parseObjTailCore]
          rw [skipWs_cons ',' _ (by decide)]
          dsimp only
          rw [if_pos rfl, skipWs_append (nl lvl) _ (wsOnly_nl lvl),
            skipWs_cons '"' _ (by decide)]
          have hns := numSafe_objTail (some lvl) t ws rest hws
          rw [parseMember_dumps n (some lvl) k v _
            (ihP v (some lvl) _ (by omega) hns)]
          dsimp only
          rw [ihR t (some lvl) ws rest (by omega) hws]

/-- Structural induction over `JVal` with membership hypotheses for the
container cases. -/
theorem ind2 (P : JVal → Prop)
    (hstr : ∀ s, P (.jstr s)) (hnat : ∀ n, P (.jnat n))
    (hflt : ∀ n, P (.jflt n)) (hbool : ∀ b, P (.jbool b))
    (harr : ∀ xs, (∀ x ∈ xs, P x) → P (.jarr xs))
    (hobj : ∀ ps, (∀ p ∈ ps, P p.2) → P (.jobj ps)) :
    ∀ v, P v := by
  have key : ∀ N v, sizeOf v ≤ N → P v := by
    intro N
    induction N with
    | zero =>
      intro v hv
      cases v <;> simp at hv
    | succ N ihN =>
      intro v hv
      cases v with
      | jstr s => exact hstr s
      | jnat m => exact hnat m
      | jflt m => exact hflt m
      | jbool b => exact hbool b
      | jarr xs =>
        refine harr xs fun x hx => ihN x ?_
        have h1 : sizeOf x < sizeOf xs := List.sizeOf_lt_of_mem hx
        have h2 : sizeOf (JVal.jarr xs) = 1 + sizeOf xs := by simp
        omega
      | jobj ps =>
        refine hobj ps fun p hp => ihN p.2 ?_
        have h1 : sizeOf p < sizeOf ps := List.sizeOf_lt_of_mem hp
        have h2 : sizeOf (JVal.jobj ps) = 1 + sizeOf ps := by simp
        have h3 : sizeOf p.2 < sizeOf p := by
          obtain ⟨a, b⟩ := p
          simp
          try omega
        omega
  exact fun v => key (sizeOf v) v le_rfl

theorem natChars_len_pos (n : Nat) : 1 ≤ (natChars n).length := by
  cases hn : natChars n with
  | nil => exact absurd hn (natChars_ne_nil n)
  | cons c cs => simp

/-- Every node of a serialized value occupies at least one character, so the
node count is dominated by the text length. -/
theorem jsize_le_dumps_len :
    ∀ v, ∀ ind : Option Nat, jsize v ≤ (dumps ind v).length := by
  refine ind2 (fun v => ∀ ind : Option Nat, jsize v ≤ (dumps ind v).length)
    ?_ ?_ ?_ ?_ ?_ ?_
  · intro s ind
    rw [jsize_jstr, dumps_jstr]
    simp
  · intro m ind
    rw [jsize_jnat, dumps_jnat]
    exact natChars_len_pos m
  · intro m ind
    rw [jsize_jflt, dumps_jflt]
    simp
  · intro b ind
    cases b with
    | true => rw [jsize_jbool, dumps_jtrue]; simp
    | false => rw [jsize_jbool, dumps_jfalse]; simp
  · intro xs hmem ind
    have htail : ∀ (t : List JVal), (∀ x ∈ t, ∀ ind' : Option Nat,
        jsize x ≤ (dumps ind' x).length) →
        ∀ ind' : Option Nat, jsizeArr t ≤ (dumpsArrTail ind' t).length := by
      intro t
      induction t with
      | nil => intro _ ind'; rw [jsizeArr_nil, dumpsArrTail_nil]; simp
      | cons y ys ihy =>
        intro hm ind'
        have hy := hm y (List.mem_cons_self ..) ind'
        have hys := ihy (fun z hz => hm z (List.mem_cons_of_mem _ hz)) ind'
        rw [jsizeArr_cons]
        cases ind' with
        | none =>
          rw [dumpsArrTail_cons_none]
          simp only [List.length_append, List.length_cons]
          simp at hy hys ⊢
          omega
        | some lvl =>
          rw [dumpsArrTail_cons_some]
          simp only [List.length_append, List.length_cons]
          simp at hy hys ⊢
          omega
    cases xs with
    | nil =>
      rw [jsize_jarr, jsizeArr_nil, dumps_jarr_nil]
      simp
    | cons x t =>
      have hx := hmem x (List.mem_cons_self ..)
      have ht := htail t (fun z hz => hmem z (List.mem_cons_of_mem _ hz))
      rw [jsize_jarr, jsizeArr_cons]
      cases ind with
      | none =>
        rw [dumps_jarr_cons_none]
        have h1 := hx (none : Option Nat)
        have h2 := ht (none : Option Nat)
        simp only [List.length_cons, List.length_append]
        simp
        omega
      | some lvl =>
        rw [dumps_jarr_cons_some]
        have h1 := hx (some (lvl + 2) : Option Nat)
        have h2 := ht (some (lvl + 2) : Option Nat)
        simp only [List.length_cons, List.length_append]
        simp
        omega
  · intro ps hmem ind
    have htail : ∀ (t : List (String × JVal)), (∀ p ∈ t, ∀ ind' : Option Nat,
        jsize p.2 ≤ (dumps ind' p.2).length) →
        ∀ ind' : Option Nat, jsizeObj t ≤ (dumpsObjTail ind' t).length := by
      intro t
      induction t with
      | nil => intro _ ind'; rw [jsizeObj_nil, dumpsObjTail_nil]; simp
      | cons q qs ihq =>
        intro hm ind'
        obtain ⟨k, v⟩ := q
        have hv := hm (k, v) (List.mem_cons_self ..) ind'
        have hqs := ihq (fun z hz => hm z (List.mem_cons_of_mem _ hz)) ind'
        rw [jsizeObj_cons]
        cases ind' with
        | none =>
          rw [dumpsObjTail_cons_none, dumpsMember_def]
          simp only [List.length_append, List.length_cons]
          simp at hv hqs ⊢
          omega
        | some lvl =>
          rw [dumpsObjTail_cons_some, dumpsMember_def]
          simp only [List.length_append, List.length_cons]
          simp at hv hqs ⊢
          omega
    cases ps with
    | nil =>
      rw [jsize_jobj, jsizeObj_nil, dumps_jobj_nil]
      simp
    | cons q t =>
      obtain ⟨k, v⟩ := q
      have hv := hmem (k, v) (List.mem_cons_self ..)
      have ht := htail t (fun z hz => hmem z (List.mem_cons_of_mem _ hz))
      rw [jsize_jobj, jsizeObj_cons]
      cases ind with
      | none =>
        rw [dumps_jobj_cons_none, dumpsMember_def]
        have h1 := hv (none : Option Nat)
        have h2 := ht (none : Option Nat)
        simp only [List.length_cons, List.length_append]
        simp at h1 h2 ⊢
        omega
      | some lvl =>
        rw [dumps_jobj_cons_some, dumpsMember_def]
        have h1 := hv (some (lvl + 2) : Option Nat)
        have h2 := ht (some (lvl + 2) : Option Nat)
        simp only [List.length_cons, List.length_append]
        simp at h1 h2 ⊢
        omega

/-- `json.loads` recovers any value from its serialization, in either mode. -/
theorem parseTop_dumps (ind : Option Nat) (v : JVal) :
    parseTop (String.mk (dumps ind v)) = some v := by
  have hfuel : jsize v ≤ (dumps ind v).length + 1 := by
    have := jsize_le_dumps_len v ind
    omega
  have hp := (parse_dumps_all ((dumps ind v).length + 1)).1 v ind [] hfuel trivial
  rw [List.append_nil] at hp
  rw [parseTop]
  show (match parseV ((dumps ind v).length + 1) (dumps ind v) with
    | some (v, r) => if (skipWs r).isEmpty then some v else none
    | none => none) = some v
  rw [hp]
  simp [skipWs]

/-- `json.loads` on a compact dump. -/
theorem parseTop_dumpsStr (v : JVal) : parseTop (dumpsStr v) = some v :=
  parseTop_dumps none v

end JVal

/-! ## The validator — model of `validate_embedded_json` in `generate_report.py`

The Python function walks the parsed document; for every dict entry whose key
is `"config"` or `"filters"` and whose value is a string it runs `json.loads`
on the string and **raises `ValueError`** (with the tree path in the message)
on the first string that fails to parse; any other value is visited
recursively.  Raising is modelled by `Except.error` carrying the path; the
exception detail text after the path is abstracted away. -/

namespace JVal

def isStrV : JVal → Bool
  | .jstr _ => true
  | _ => false

def strOf : JVal → String
  | .jstr s => s
  | _ => ""

mutual

def validate_embedded_json : JVal → String → Except String Unit
  | .jobj ps, path => validateFields ps path
  | .jarr xs, path => validateItems xs path 0
  | _, _ => .ok ()

def validateFields : List (String × JVal) → String → Except String Unit
  | [], _ => .ok ()
  | (k, v) :: rest, path =>
    if (k = "config" ∨ k = "filters") ∧ isStrV v = true then
      match parseTop (strOf v) with
      | some _ => validateFields rest path
      | none => .error ("Invalid embedded JSON at " ++ path ++ "." ++ k)
    else
      match validate_embedded_json v (path ++ "." ++ k) with
      | .error e => .error e
      | .ok () => validateFields rest path

def validateItems : List JVal → String → Nat → Except String Unit
  | [], _, _ => .ok ()
  | x :: xs, path, i =>
    match validate_embedded_json x (path ++ "[" ++ toString i ++ "]") with
    | .error e => .error e
    | .ok () => validateItems xs path (i + 1)

end

mutual

/-- Declarative counterpart of what the validator checks: every string stored
under a `"config"` or `"filters"` key, anywhere in the tree, parses as JSON. -/
def allBlobs : JVal → Bool
  | .jobj ps => allBlobsFields ps
  | .jarr xs => allBlobsItems xs
  | _ => true

def allBlobsFields : List (String × JVal) → Bool
  | [] => true
  | (k, v) :: rest =>
    (if (k = "config" ∨ k = "filters") ∧ isStrV v = true then
      (parseTop (strOf v)).isSome
    else allBlobs v) && allBlobsFields rest

def allBlobsItems : List JVal → Bool
  | [] => true
  | x :: xs => allBlobs x && allBlobsItems xs

end

theorem validate_jstr (s : String) (path : String) :
    validate_embedded_json (.jstr s) path = .ok () := rfl
theorem validate_jnat (n : Nat) (path : String) :
    validate_embedded_json (.jnat n) path = .ok () := rfl
theorem validate_jflt (n : Nat) (path : String) :
    validate_embedded_json (.jflt n) path = .ok () := rfl
theorem validate_jbool (b : Bool) (path : String) :
    validate_embedded_json (.jbool b) path = .ok () := rfl
theorem validate_jobj (ps : List (String × JVal)) (path : String) :
    validate_embedded_json (.jobj ps) path = validateFields ps path := rfl
theorem validate_jarr (xs : List JVal) (path : String) :
    validate_embedded_json (.jarr xs) path = validateItems xs path 0 := rfl
theorem validateFields_nil (path : String) : validateFields [] path = .ok () := rfl
theorem validateFields_cons (k : String) (v : JVal)
    (rest : List (String × JVal)) (path : String) :
    validateFields ((k, v) :: rest) path =
      if (k = "config" ∨ k = "filters") ∧ isStrV v = true then
        match parseTop (strOf v) with
        | some _ => validateFields rest path
        | none => .error ("Invalid embedded JSON at " ++ path ++ "." ++ k)
      else
        match validate_embedded_json v (path ++ "." ++ k) with
        | .error e => .error e
        | .ok () => validateFields rest path := rfl
theorem validateItems_nil (path : String) (i : Nat) :
    validateItems [] path i = .ok () := rfl
theorem validateItems_cons (x : JVal) (xs : List JVal) (path : String) (i : Nat) :
    validateItems (x :: xs) path i =
      match validate_embedded_json x (path ++ "[" ++ toString i ++ "]") with
      | .error e => .error e
      | .ok () => validateItems xs path (i + 1) := rfl

theorem allBlobs_jobj (ps : List (String × JVal)) :
    allBlobs (.jobj ps) = allBlobsFields ps := rfl
theorem allBlobs_jarr (xs : List JVal) :
    allBlobs (.jarr xs) = allBlobsItems xs := rfl
theorem allBlobsFields_cons (k : String) (v : JVal)
    (rest : List (String × JVal)) :
    allBlobsFields ((k, v) :: rest) =
      ((if (k = "config" ∨ k = "filters") ∧ isStrV v = true then
        (parseTop (strOf v)).isSome
      else allBlobs v) && allBlobsFields rest) := rfl
theorem allBlobsItems_cons (x : JVal) (xs : List JVal) :
    allBlobsItems (x :: xs) = (allBlobs x && allBlobsItems xs) := rfl
theorem allBlobs_jstr (s : String) : allBlobs (.jstr s) = true := rfl
theorem allBlobs_jnat (n : Nat) : allBlobs (.jnat n) = true := rfl
theorem allBlobs_jflt (n : Nat) : allBlobs (.jflt n) = true := rfl
theorem allBlobs_jbool (b : Bool) : allBlobs (.jbool b) = true := rfl
theorem allBlobsFields_nil : allBlobsFields [] = true := rfl
theorem allBlobsItems_nil : allBlobsItems [] = true := rfl

/-- The validator succeeds exactly when every embedded `config`/`filters`
string blob in the tree parses — it checks nothing else. -/
theorem validate_ok_iff_allBlobs :
    ∀ v : JVal, ∀ path : String,
      validate_embedded_json v path = .ok () ↔ allBlobs v = true := by
  refine ind2 (fun v => ∀ path,
    validate_embedded_json v path = .ok () ↔ allBlobs v = true)
    ?_ ?_ ?_ ?_ ?_ ?_
  · intro s path
    simp [validate_jstr, allBlobs]
  · intro m path
    simp [validate_jnat, allBlobs]
  · intro m path
    simp [validate_jflt, allBlobs]
  · intro b path
    simp [validate_jbool, allBlobs]
  · intro xs hmem path
    rw [validate_jarr, allBlobs_jarr]
    have key : ∀ (t : List JVal), (∀ x ∈ t, ∀ p,
        validate_embedded_json x p = .ok () ↔ allBlobs x = true) →
        ∀ p i, validateItems t p i = .ok () ↔ allBlobsItems t = true := by
      intro t
      induction t with
      | nil => intro _ p i; simp [validateItems_nil, allBlobsItems]
      | cons y ys ihy =>
        intro hm p i
        rw [validateItems_cons, allBlobsItems_cons]
        have hy := hm y (List.mem_cons_self ..) (p ++ "[" ++ toString i ++ "]")
        have hys := ihy (fun z hz => hm z (List.mem_cons_of_mem _ hz)) p (i + 1)
        cases hv : validate_embedded_json y (p ++ "[" ++ toString i ++ "]") with
        | error e =>
          have : ¬ allBlobs y = true := by
            intro hab
            rw [← hy] at hab
            rw [hv] at hab
            cases hab
          simp [this]
        | ok u =>
          cases u
          have hab : allBlobs y = true := hy.mp hv
          simp [hab, hys]
    exact key xs hmem path 0
  · intro ps hmem path
    rw [validate_jobj, allBlobs_jobj]
    have key : ∀ (t : List (String × JVal)), (∀ q ∈ t, ∀ p,
        validate_embedded_json q.2 p = .ok () ↔ allBlobs q.2 = true) →
        ∀ p, validateFields t p = .ok () ↔ allBlobsFields t = true := by
      intro t
      induction t with
      | nil => intro _ p; simp [validateFields_nil, allBlobsFields]
      | cons q qs ihq =>
        intro hm p
        obtain ⟨k, v⟩ := q
        rw [validateFields_cons, allBlobsFields_cons]
        have hv2 := hm (k, v) (List.mem_cons_self ..) (p ++ "." ++ k)
        have hqs := ihq (fun z hz => hm z (List.mem_cons_of_mem _ hz)) p
        by_cases hcond : (k = "config" ∨ k = "filters") ∧ isStrV v = true
        · rw [if_pos hcond, if_pos hcond]
          cases hpt : parseTop (strOf v) with
          | none => simp [hqs]
          | some w => simp [hqs]
        · rw [if_neg hcond, if_neg hcond]
          cases hval : validate_embedded_json v (p ++ "." ++ k) with
          | error e =>
            have : ¬ allBlobs v = true := by
              intro hab
              rw [← hv2] at hab
              rw [hval] at hab
              cases hab
            simp [this]
          | ok u =>
            cases u
            have hab : allBlobs v = true := hv2.mp hval
            simp [hab, hqs]
    exact key ps hmem path

end JVal

/-! ## The report builder — embedding of `generate_report.py`

Python dicts (≥ 3.7) preserve insertion order and `json.dumps` serializes
keys in that order, so every dict literal below is an ordered `jobj` with the
fields in source order.  All numbers in the script are non-negative integers;
`float(...)` coercions become `jflt`.  `f"'{s}'"` literals are built with
`sq`, the single-quote character. -/

namespace Report

open JVal

/-- The single-quote character used by the literal builders. -/
def sq : String := String.singleton (Char.ofNat 39)

-- DESIGN CONSTANTS
def PRIMARY_BLUE : String := "#0017C1"
def BG_VISUAL : String := "#F8F8FB"
def PAGE_BG : String := "#FFFFFF"
def TEXT_COLOR : String := "#1A1A1A"
def TEXT_SECONDARY : String := "#666666"
def TEXT_MUTED : String := "#999999"
def BORDER_RADIUS : Nat := 20
def GRID_LINE_COLOR : String := "#D8D8DB"
def COMPLETED_COLOR : String := "#0017C1"
def INCOMPLETE_GRAY : String := "#D8D8DB"
def LIGHT_BLUE : String := "#C5D7FB"
def HEADER_BG : String := "#F1F1F4"
def FONT_FAMILY : String := "Arial"
def DONUT_INNER_RADIUS : Nat := 82
def PAGE_WIDTH : Nat := 1920
def PAGE_HEIGHT : Nat := 1080
def CARD_BORDER_COLOR : String := "#E8E8EB"

/-- Wrap a value in a PBI Literal expression. -/
def lit (val : String) : JVal :=
  .jobj [("expr", .jobj [("Literal", .jobj [("Value", .jstr val)])])]

def lit_str (s : String) : JVal := lit (sq ++ s ++ sq)

def lit_bool (b : Bool) : JVal := lit (if b then "true" else "false")

def lit_int (n : Nat) : JVal := lit (toString n ++ "L")

def lit_double (n : Nat) : JVal := lit (toString n ++ "D")

def solid_color (c : String) : JVal :=
  .jobj [("solid", .jobj [("color", lit_str c)])]

/-- `std_vc_objects` with explicit arguments (the script only ever calls it
with all parameters at their declared defaults). -/
def std_vc_objects (show_bg : Bool) (bg_color : String) (show_border : Bool)
    (border_color : String) (border_radius : Nat) : JVal :=
  .jobj [
    ("title", .jarr [.jobj [("properties", .jobj [("show", lit_bool false)])]]),
    ("background", .jarr [.jobj [("properties", .jobj [
      ("show", lit_bool show_bg),
      ("color", solid_color bg_color),
      ("transparency", lit_double 0)])]]),
    ("border", .jarr [.jobj [("properties", .jobj [
      ("show", lit_bool show_border),
      ("color", solid_color border_color),
      ("radius", lit_int border_radius)])]]),
    ("padding", .jarr [.jobj [("properties", .jobj [
      ("top", lit_double 0),
      ("bottom", lit_double 0),
      ("left", lit_double 0),
      ("right", lit_double 0)])]])]

/-- The default invocation `std_vc_objects()`. -/
def std_vc_objects_default : JVal :=
  std_vc_objects false BG_VISUAL false BG_VISUAL BORDER_RADIUS

/-- vcObjects that hide everything (for shapes, buttons). -/
def hidden_vc_objects : JVal :=
  .jobj [
    ("title", .jarr [.jobj [("properties", .jobj [("show", lit_bool false)])]]),
    ("background", .jarr [.jobj [("properties", .jobj [("show", lit_bool false)])]]),
    ("border", .jarr [.jobj [("properties", .jobj [("show", lit_bool false)])]]),
    ("visualHeader", .jarr [.jobj [("properties", .jobj [("show", lit_bool false)])]])]

/-- Make a visual container dict: the `config` and `filters` fields hold the
compact `json.dumps` serialization of their nested documents. -/
def make_visual_container (config_dict : JVal) (filters_list : JVal)
    (x y w h z : Nat) : JVal :=
  .jobj [
    ("config", .jstr (dumpsStr config_dict)),
    ("filters", .jstr (dumpsStr filters_list)),
    ("height", .jflt h),
    ("width", .jflt w),
    ("x", .jflt x),
    ("y", .jflt y),
    ("z", .jflt z)]

def position (x y z w h tab : Nat) : JVal :=
  .jobj [("x", .jnat x), ("y", .jnat y), ("z", .jnat z),
    ("width", .jnat w), ("height", .jnat h), ("tabOrder", .jnat tab)]

/-- The `config` dict of a textbox visual. -/
def make_textbox_config (name : String) (x y w h z : Nat)
    (paragraphs_json : JVal) (vc_objects : Option JVal) : JVal :=
  .jobj [
    ("name", .jstr name),
    ("layouts", .jarr [.jobj [("id", .jnat 0),
      ("position", position x y z w h 0)]]),
    ("singleVisual", .jobj [
      ("visualType", .jstr "textbox"),
      ("objects", .jobj [
        ("general", .jarr [.jobj [("properties", .jobj [
          ("paragraphs", lit (dumpsStr paragraphs_json))])]])]),
      ("vcObjects", vc_objects.getD std_vc_objects_default)])]

def make_textbox (name : String) (x y w h z : Nat) (paragraphs_json : JVal)
    (vc_objects : Option JVal) : JVal :=
  make_visual_container
    (make_textbox_config name x y w h z paragraphs_json vc_objects)
    (.jarr []) x y w h z

/-- The `config` dict of a card visual. -/
def make_card_config (name : String) (x y w h z : Nat) (measure_name : String)
    (font_size : Nat) (vc_objects : Option JVal) : JVal :=
  .jobj [
    ("name", .jstr name),
    ("layouts", .jarr [.jobj [("id", .jnat 0),
      ("position", position x y z w h 0)]]),
    ("singleVisual", .jobj [
      ("visualType", .jstr "card"),
      ("projections", .jobj [
        ("Values", .jarr [.jobj [("queryRef", .jstr ("o." ++ measure_name))]])]),
      ("prototypeQuery", .jobj [
        ("Version", .jnat 2),
        ("From", .jarr [.jobj [("Name", .jstr "o"),
          ("Entity", .jstr "オンライン化状況"), ("Type", .jnat 0)]]),
        ("Select", .jarr [.jobj [
          ("Measure", .jobj [
            ("Expression", .jobj [("SourceRef", .jobj [("Source", .jstr "o")])]),
            ("Property", .jstr measure_name)]),
          ("Name", .jstr ("o." ++ measure_name))]])]),
      ("objects", .jobj [
        ("labels", .jarr [.jobj [("properties", .jobj [
          ("fontSize", lit_double font_size),
          ("color", solid_color TEXT_COLOR),
          ("fontFamily", lit_str FONT_FAMILY)])]]),
        ("categoryLabels", .jarr [.jobj [("properties", .jobj [
          ("show", lit_bool false)])]])]),
      ("vcObjects", vc_objects.getD std_vc_objects_default)])]

def make_card (name : String) (x y w h z : Nat) (measure_name : String)
    (font_size : Nat) (vc_objects : Option JVal) : JVal :=
  make_visual_container
    (make_card_config name x y w h z measure_name font_size vc_objects)
    (.jarr []) x y w h z

/-- The `config` dict of a shape visual (rounded rectangle); the script calls
`make_shape` only with the declared defaults for fill/line/weight/roundEdge. -/
def make_shape_config (name : String) (x y w h z : Nat) (fill_color : String)
    (line_color : String) (weight : Nat) (round_edge : Nat) : JVal :=
  .jobj [
    ("name", .jstr name),
    ("layouts", .jarr [.jobj [("id", .jnat 0),
      ("position", position x y z w h 0)]]),
    ("singleVisual", .jobj [
      ("visualType", .jstr "shape"),
      ("objects", .jobj [
        ("line", .jarr [.jobj [("properties", .jobj [
          ("lineColor", solid_color line_color),
          ("weight", lit_double weight),
          ("roundEdge", lit_int round_edge)])]]),
        ("fill", .jarr [.jobj [("properties", .jobj [
          ("fillColor", solid_color fill_color),
          ("transparency", lit_double 0)])]])]),
      ("vcObjects", hidden_vc_objects)])]

def make_shape (name : String) (x y w h z : Nat) : JVal :=
  make_visual_container
    (make_shape_config name x y w h z PAGE_BG CARD_BORDER_COLOR 1 BORDER_RADIUS)
    (.jarr []) x y w h z

/-- Donut chart data-point selector (conditional per-category fill). -/
def donut_data_point_selector (entity prop value color : String) : JVal :=
  .jobj [
    ("properties", .jobj [("fill", solid_color color)]),
    ("selector", .jobj [
      ("data", .jarr [.jobj [
        ("scopeId", .jobj [
          ("Comparison", .jobj [
            ("ComparisonKind", .jnat 0),
            ("Left", .jobj [
              ("Column", .jobj [
                ("Expression", .jobj [("SourceRef", .jobj [
                  ("Entity", .jstr entity)])]),
                ("Property", .jstr prop)])]),
            ("Right", .jobj [("Literal", .jobj [
              ("Value", .jstr (sq ++ value ++ sq))])])])])]])])]

/-- The `config` dict of a donut chart. -/
def make_donut_config (name : String) (x y w h z : Nat)
    (label_font_size : Nat) (vc_objects : Option JVal) : JVal :=
  .jobj [
    ("name", .jstr name),
    ("layouts", .jarr [.jobj [("id", .jnat 0),
      ("position", position x y z w h 0)]]),
    ("singleVisual", .jobj [
      ("visualType", .jstr "donutChart"),
      ("projections", .jobj [
        ("Category", .jarr [.jobj [("queryRef", .jstr "k.ステータス")]]),
        ("Y", .jarr [.jobj [("queryRef", .jstr "k.完了状況値")]])]),
      ("prototypeQuery", .jobj [
        ("Version", .jnat 2),
        ("From", .jarr [.jobj [("Name", .jstr "k"),
          ("Entity", .jstr "完了状況"), ("Type", .jnat 0)]]),
        ("Select", .jarr [
          .jobj [
            ("Column", .jobj [
              ("Expression", .jobj [("SourceRef", .jobj [("Source", .jstr "k")])]),
              ("Property", .jstr "ステータス")]),
            ("Name", .jstr "k.ステータス")],
          .jobj [
            ("Measure", .jobj [
              ("Expression", .jobj [("SourceRef", .jobj [("Source", .jstr "k")])]),
              ("Property", .jstr "完了状況値")]),
            ("Name", .jstr "k.完了状況値")]]),
        ("OrderBy", .jarr [.jobj [
          ("Direction", .jnat 1),
          ("Expression", .jobj [
            ("Column", .jobj [
              ("Expression", .jobj [("SourceRef", .jobj [("Source", .jstr "k")])]),
              ("Property", .jstr "順序")])])]])]),
      ("objects", .jobj [
        ("legend", .jarr [.jobj [("properties", .jobj [
          ("show", lit_bool false)])]]),
        ("dataPoint", .jarr [
          donut_data_point_selector "完了状況" "ステータス" "完了" COMPLETED_COLOR,
          donut_data_point_selector "完了状況" "ステータス" "未完了" INCOMPLETE_GRAY]),
        ("labels", .jarr [.jobj [("properties", .jobj [
          ("show", lit_bool true),
          ("labelStyle", lit_str "Percent of total"),
          ("fontSize", lit_double label_font_size),
          ("color", solid_color TEXT_COLOR),
          ("fontFamily", lit_str FONT_FAMILY)])]]),
        ("slices", .jarr [.jobj [("properties", .jobj [
          ("innerRadiusRatio", lit_int DONUT_INNER_RADIUS)])]])]),
      ("vcObjects", vc_objects.getD std_vc_objects_default)])]

def make_donut (name : String) (x y w h z : Nat) (label_font_size : Nat)
    (vc_objects : Option JVal) : JVal :=
  make_visual_container
    (make_donut_config name x y w h z label_font_size vc_objects)
    (.jarr []) x y w h z

/-- The `config` dict of a slicer visual. -/
def make_slicer_config (name : String) (x y w h z : Nat)
    (column_name title_text : String) : JVal :=
  .jobj [
    ("name", .jstr name),
    ("layouts", .jarr [.jobj [("id", .jnat 0),
      ("position", position x y z w h 0)]]),
    ("singleVisual", .jobj [
      ("visualType", .jstr "slicer"),
      ("projections", .jobj [
        ("Values", .jarr [.jobj [("queryRef", .jstr ("o." ++ column_name))]])]),
      ("prototypeQuery", .jobj [
        ("Version", .jnat 2),
        ("From", .jarr [.jobj [("Name", .jstr "o"),
          ("Entity", .jstr "オンライン化状況"), ("Type", .jnat 0)]]),
        ("Select", .jarr [.jobj [
          ("Column", .jobj [
            ("Expression", .jobj [("SourceRef", .jobj [("Source", .jstr "o")])]),
            ("Property", .jstr column_name)]),
          ("Name", .jstr ("o." ++ column_name))]])]),
      ("objects", .jobj [
        ("general", .jarr [.jobj [("properties", .jobj [
          ("responsive", lit_bool true)])]]),
        ("data", .jarr [.jobj [("properties", .jobj [
          ("mode", lit_str "Dropdown")])]]),
        ("selection", .jarr [.jobj [("properties", .jobj [
          ("singleSelect", lit_bool false)])]]),
        ("header", .jarr [.jobj [("properties", .jobj [
          ("show", lit_bool false)])]]),
        ("items", .jarr [.jobj [("properties", .jobj [
          ("textSize", lit_double 14),
          ("fontFamily", lit_str FONT_FAMILY),
          ("padding", lit_int 6)])]])]),
      ("vcObjects", .jobj [
        ("title", .jarr [.jobj [("properties", .jobj [
          ("show", lit_bool true),
          ("text", lit_str title_text),
          ("fontColor", solid_color TEXT_COLOR),
          ("fontSize", lit_double 12),
          ("fontFamily", lit_str FONT_FAMILY)])]]),
        ("background", .jarr [.jobj [("properties", .jobj [
          ("show", lit_bool false)])]]),
        ("border", .jarr [.jobj [("properties", .jobj [
          ("show", lit_bool true),
          ("color", solid_color GRID_LINE_COLOR),
          ("radius", lit_int 10)])]]),
        ("padding", .jarr [.jobj [("properties", .jobj [
          ("top", lit_double 0),
          ("bottom", lit_double 0),
          ("left", lit_double 0),
          ("right", lit_double 0)])]])])])]

def make_slicer (name : String) (x y w h z : Nat)
    (column_name title_text : String) : JVal :=
  make_visual_container
    (make_slicer_config name x y w h z column_name title_text)
    (.jarr []) x y w h z

-- MATRIX STYLING (shared between Page 1 and Page 2)
def matrix_objects_base : JVal :=
  .jobj [
    ("grid", .jarr [.jobj [("properties", .jobj [
      ("gridVertical", lit_bool true),
      ("gridVerticalColor", solid_color GRID_LINE_COLOR),
      ("gridVerticalWeight", lit_int 1),
      ("gridHorizontal", lit_bool true),
      ("gridHorizontalColor", solid_color GRID_LINE_COLOR),
      ("gridHorizontalWeight", lit_int 1),
      ("outlineColor", solid_color GRID_LINE_COLOR),
      ("outlineWeight", lit_int 1),
      ("textSize", lit_double 14),
      ("rowPadding", lit_int 4)])]]),
    ("columnHeaders", .jarr [.jobj [("properties", .jobj [
      ("fontColor", solid_color TEXT_COLOR),
      ("backColor", solid_color HEADER_BG),
      ("bold", lit_bool true),
      ("fontSize", lit_double 14),
      ("fontFamily", lit_str FONT_FAMILY),
      ("outline", lit_str "Frame")])]]),
    ("rowHeaders", .jarr [.jobj [("properties", .jobj [
      ("fontColor", solid_color TEXT_COLOR),
      ("backColor", solid_color HEADER_BG),
      ("bold", lit_bool true),
      ("fontSize", lit_double 14),
      ("fontFamily", lit_str FONT_FAMILY),
      ("outline", lit_str "Frame")])]]),
    ("values", .jarr [.jobj [("properties", .jobj [
      ("fontColorPrimary", solid_color TEXT_COLOR),
      ("backColorPrimary", solid_color PAGE_BG),
      ("fontColorSecondary", solid_color TEXT_COLOR),
      ("backColorSecondary", solid_color BG_VISUAL),
      ("fontSize", lit_double 16),
      ("fontFamily", lit_str FONT_FAMILY),
      ("outline", lit_str "Frame"),
      ("bandedRowHeaders", lit_bool true)])]]),
    ("subTotals", .jarr [.jobj [("properties", .jobj [
      ("rowSubtotals", lit_bool false),
      ("columnSubtotals", lit_bool false)])]])]

def matrix_vc_objects : JVal :=
  .jobj [
    ("title", .jarr [.jobj [("properties", .jobj [("show", lit_bool false)])]]),
    ("background", .jarr [.jobj [("properties", .jobj [
      ("show", lit_bool true),
      ("color", solid_color PAGE_BG),
      ("transparency", lit_double 0)])]]),
    ("border", .jarr [.jobj [("properties", .jobj [
      ("show", lit_bool true),
      ("color", solid_color CARD_BORDER_COLOR),
      ("radius", lit_int BORDER_RADIUS)])]]),
    ("padding", .jarr [.jobj [("properties", .jobj [
      ("top", lit_double 0),
      ("bottom", lit_double 0),
      ("left", lit_double 0),
      ("right", lit_double 0)])]])]

-- PAGE 1: 都道府県一覧

def page1_config : JVal :=
  .jobj [("objects", .jobj [
    ("background", .jarr [.jobj [("properties", .jobj [
      ("color", solid_color PAGE_BG),
      ("transparency", lit_double 0)])]])])]

def p1_title_paragraphs : JVal :=
  .jobj [("paragraphs", .jarr [.jobj [
    ("textRuns", .jarr [.jobj [
      ("value", .jstr "子育て・介護関係の26手続のオンライン化取組状況"),
      ("textStyle", .jobj [
        ("fontSize", .jstr "22px"),
        ("color", .jstr TEXT_COLOR),
        ("fontWeight", .jstr "bold"),
        ("fontFamily", .jstr FONT_FAMILY)])]])]])]

def p1_org_paragraphs : JVal :=
  .jobj [("paragraphs", .jarr [.jobj [
    ("textRuns", .jarr [.jobj [
      ("value", .jstr "デジタル庁"),
      ("textStyle", .jobj [
        ("fontSize", .jstr "14px"),
        ("color", .jstr TEXT_COLOR),
        ("fontFamily", .jstr FONT_FAMILY)])]]),
    ("horizontalTextAlignment", .jstr "right")]])]

def p1_subtitle_paragraphs : JVal :=
  .jobj [("paragraphs", .jarr [
    .jobj [("textRuns", .jarr [.jobj [
      ("value", .jstr "子育て・介護関係の全26手続を"),
      ("textStyle", .jobj [("fontSize", .jstr "16px"), ("color", .jstr TEXT_COLOR),
        ("fontWeight", .jstr "bold"), ("fontFamily", .jstr FONT_FAMILY)])]])],
    .jobj [("textRuns", .jarr [.jobj [
      ("value", .jstr "オンライン手続できる自治体の割合"),
      ("textStyle", .jobj [("fontSize", .jstr "16px"), ("color", .jstr TEXT_COLOR),
        ("fontWeight", .jstr "bold"), ("fontFamily", .jstr FONT_FAMILY)])]])]])]

def p1_kpi_label_paragraphs : JVal :=
  .jobj [("paragraphs", .jarr [.jobj [
    ("textRuns", .jarr [.jobj [
      ("value", .jstr "オンライン化が完了した自治体数／全自治体数"),
      ("textStyle", .jobj [("fontSize", .jstr "12px"),
        ("color", .jstr TEXT_SECONDARY), ("fontFamily", .jstr FONT_FAMILY)])]])]])]

def p1_slash_paragraphs : JVal :=
  .jobj [("paragraphs", .jarr [.jobj [
    ("textRuns", .jarr [.jobj [
      ("value", .jstr "／"),
      ("textStyle", .jobj [("fontSize", .jstr "24px"), ("color", .jstr TEXT_COLOR),
        ("fontFamily", .jstr FONT_FAMILY)])]])]])]

def p1_legend_paragraphs : JVal :=
  .jobj [("paragraphs", .jarr [
    .jobj [("textRuns", .jarr [.jobj [("value", .jstr "凡例"), ("textStyle", .jobj [
      ("fontSize", .jstr "13px"), ("color", .jstr TEXT_COLOR),
      ("fontWeight", .jstr "bold"), ("fontFamily", .jstr FONT_FAMILY)])]])],
    .jobj [("textRuns", .jarr [.jobj [("value", .jstr ""),
      ("textStyle", .jobj [("fontSize", .jstr "8px")])]])],
    .jobj [("textRuns", .jarr [
      .jobj [("value", .jstr "●"), ("textStyle", .jobj [("fontSize", .jstr "13px"),
        ("color", .jstr COMPLETED_COLOR), ("fontFamily", .jstr FONT_FAMILY)])],
      .jobj [("value", .jstr " 100%（全26手続オンライン化完了）"), ("textStyle", .jobj [
        ("fontSize", .jstr "13px"), ("color", .jstr TEXT_SECONDARY),
        ("fontFamily", .jstr FONT_FAMILY)])]])],
    .jobj [("textRuns", .jarr [
      .jobj [("value", .jstr "●"), ("textStyle", .jobj [("fontSize", .jstr "13px"),
        ("color", .jstr LIGHT_BLUE), ("fontFamily", .jstr FONT_FAMILY)])],
      .jobj [("value", .jstr " 80%以上100%未満"), ("textStyle", .jobj [
        ("fontSize", .jstr "13px"), ("color", .jstr TEXT_SECONDARY),
        ("fontFamily", .jstr FONT_FAMILY)])]])],
    .jobj [("textRuns", .jarr [
      .jobj [("value", .jstr "●"), ("textStyle", .jobj [("fontSize", .jstr "13px"),
        ("color", .jstr INCOMPLETE_GRAY), ("fontFamily", .jstr FONT_FAMILY)])],
      .jobj [("value", .jstr " 80%未満"), ("textStyle", .jobj [
        ("fontSize", .jstr "13px"), ("color", .jstr TEXT_SECONDARY),
        ("fontFamily", .jstr FONT_FAMILY)])]])]])]

/-- Matrix (pivotTable) config of page 1. -/
def p1_matrix_config : JVal :=
  .jobj [
    ("name", .jstr "vc_p1_matrix"),
    ("layouts", .jarr [.jobj [("id", .jnat 0),
      ("position", position 480 80 0 1420 880 0)]]),
    ("singleVisual", .jobj [
      ("visualType", .jstr "pivotTable"),
      ("projections", .jobj [
        ("Rows", .jarr [
          .jobj [("queryRef", .jstr "o.地域ブロック")],
          .jobj [("queryRef", .jstr "o.都道府県")]]),
        ("Values", .jarr [
          .jobj [("queryRef", .jstr "o.子育て介護26手続完了率")],
          .jobj [("queryRef", .jstr "o.子育て介護26手続完了自治体数")],
          .jobj [("queryRef", .jstr "o.自治体数")]])]),
      ("prototypeQuery", .jobj [
        ("Version", .jnat 2),
        ("From", .jarr [.jobj [("Name", .jstr "o"),
          ("Entity", .jstr "オンライン化状況"), ("Type", .jnat 0)]]),
        ("Select", .jarr [
          .jobj [
            ("Column", .jobj [
              ("Expression", .jobj [("SourceRef", .jobj [("Source", .jstr "o")])]),
              ("Property", .jstr "地域ブロック")]),
            ("Name", .jstr "o.地域ブロック")],
          .jobj [
            ("Column", .jobj [
              ("Expression", .jobj [("SourceRef", .jobj [("Source", .jstr "o")])]),
              ("Property", .jstr "都道府県")]),
            ("Name", .jstr "o.都道府県")],
          .jobj [
            ("Measure", .jobj [
              ("Expression", .jobj [("SourceRef", .jobj [("Source", .jstr "o")])]),
              ("Property", .jstr "子育て介護26手続完了率")]),
            ("Name", .jstr "o.子育て介護26手続完了率")],
          .jobj [
            ("Measure", .jobj [
              ("Expression", .jobj [("SourceRef", .jobj [("Source", .jstr "o")])]),
              ("Property", .jstr "子育て介護26手続完了自治体数")]),
            ("Name", .jstr "o.子育て介護26手続完了自治体数")],
          .jobj [
            ("Measure", .jobj [
              ("Expression", .jobj [("SourceRef", .jobj [("Source", .jstr "o")])]),
              ("Property", .jstr "自治体数")]),
            ("Name", .jstr "o.自治体数")]])]),
      ("objects", matrix_objects_base),
      ("vcObjects", matrix_vc_objects)])]

def p1_date_paragraphs : JVal :=
  .jobj [("paragraphs", .jarr [.jobj [
    ("textRuns", .jarr [.jobj [
      ("value", .jstr "令和６年度末時点"),
      ("textStyle", .jobj [("fontSize", .jstr "11px"), ("color", .jstr TEXT_MUTED),
        ("fontFamily", .jstr FONT_FAMILY)])]]),
    ("horizontalTextAlignment", .jstr "right")]])]

/-- The ordered visual-container list of page 1, in `visuals.append` order. -/
def page1_visuals : List JVal :=
  [make_textbox "vc_p1_title" 40 24 900 44 0 p1_title_paragraphs none,
   make_textbox "vc_p1_org" 1740 24 160 36 0 p1_org_paragraphs none,
   make_shape "vc_p1_left_bg" 20 80 440 780 0,
   make_textbox "vc_p1_subtitle" 50 100 400 56 1 p1_subtitle_paragraphs none,
   make_donut "vc_p1_donut" 100 180 280 280 1 36 none,
   make_textbox "vc_p1_kpi_label" 50 480 380 24 1 p1_kpi_label_paragraphs none,
   make_card "vc_p1_kpi_completed" 80 510 130 55 1 "子育て介護26手続完了自治体数" 28 none,
   make_textbox "vc_p1_slash" 210 516 30 42 1 p1_slash_paragraphs none,
   make_card "vc_p1_kpi_total" 240 510 130 55 1 "自治体数" 28 none,
   make_textbox "vc_p1_legend" 50 590 380 120 1 p1_legend_paragraphs none,
   make_visual_container p1_matrix_config (.jarr []) 480 80 1420 880 0,
   make_textbox "vc_p1_date" 1620 980 280 24 1 p1_date_paragraphs none]

def build_page1 : JVal :=
  .jobj [
    ("config", .jstr (dumpsStr page1_config)),
    ("displayName", .jstr "都道府県一覧"),
    ("displayOption", .jnat 1),
    ("filters", .jstr "[]"),
    ("height", .jflt PAGE_HEIGHT),
    ("name", .jstr "ReportSection_page1"),
    ("ordinal", .jnat 0),
    ("visualContainers", .jarr page1_visuals),
    ("width", .jflt PAGE_WIDTH)]

-- PAGE 2: 市区町村詳細

def page2_config : JVal :=
  .jobj [("objects", .jobj [
    ("background", .jarr [.jobj [("properties", .jobj [
      ("color", solid_color PAGE_BG),
      ("transparency", lit_double 0)])]])])]

/-- The page-level filter of page 2. -/
def page2_filters : JVal :=
  .jarr [.jobj [
    ("name", .jstr "filter_subcat"),
    ("expression", .jobj [
      ("Column", .jobj [
        ("Expression", .jobj [("SourceRef", .jobj [
          ("Entity", .jstr "オンライン化状況")])]),
        ("Property", .jstr "サブカテゴリ")])]),
    ("type", .jstr "Categorical"),
    ("filter", .jobj [
      ("Version", .jnat 2),
      ("From", .jarr [.jobj [("Name", .jstr "o"),
        ("Entity", .jstr "オンライン化状況"), ("Type", .jnat 0)]]),
      ("Where", .jarr [.jobj [
        ("Condition", .jobj [
          ("In", .jobj [
            ("Expressions", .jarr [.jobj [
              ("Column", .jobj [
                ("Expression", .jobj [("SourceRef", .jobj [
                  ("Source", .jstr "o")])]),
                ("Property", .jstr "サブカテゴリ")])]]),
            ("Values", .jarr [
              .jarr [.jobj [("Literal", .jobj [
                ("Value", .jstr (sq ++ "ア.子育て関係" ++ sq))])]],
              .jarr [.jobj [("Literal", .jobj [
                ("Value", .jstr (sq ++ "イ.介護関係" ++ sq))])]]])])])]])]),
    ("isHiddenInViewMode", .jbool true)]]

/-- Back button config (action button navigating to page 1). -/
def p2_back_config : JVal :=
  .jobj [
    ("name", .jstr "vc_p2_back"),
    ("layouts", .jarr [.jobj [("id", .jnat 0),
      ("position", position 20 20 0 240 30 0)]]),
    ("singleVisual", .jobj [
      ("visualType", .jstr "actionButton"),
      ("objects", .jobj [
        ("icon", .jarr [.jobj [("properties", .jobj [
          ("show", lit_bool false)])]]),
        ("outline", .jarr [.jobj [("properties", .jobj [
          ("show", lit_bool false)])]]),
        ("text", .jarr [.jobj [("properties", .jobj [
          ("show", lit_bool true),
          ("text", lit_str "< 都道府県一覧に戻る"),
          ("fontColor", solid_color PRIMARY_BLUE),
          ("fontSize", lit_double 14),
          ("fontFamily", lit_str FONT_FAMILY),
          ("alignment", lit_str "Left")])]]),
        ("action", .jarr [.jobj [("properties", .jobj [
          ("type", lit_str "PageNavigation"),
          ("destination", lit_str "ReportSection_page1")])]])]),
      ("vcObjects", hidden_vc_objects)])]

def p2_org_paragraphs : JVal :=
  .jobj [("paragraphs", .jarr [.jobj [
    ("textRuns", .jarr [.jobj [
      ("value", .jstr "デジタル庁"),
      ("textStyle", .jobj [("fontSize", .jstr "14px"), ("color", .jstr TEXT_COLOR),
        ("fontFamily", .jstr FONT_FAMILY)])]]),
    ("horizontalTextAlignment", .jstr "right")]])]

def p2_subtitle_paragraphs : JVal :=
  .jobj [("paragraphs", .jarr [
    .jobj [("textRuns", .jarr [.jobj [
      ("value", .jstr "子育て・介護関係の全26手続を"),
      ("textStyle", .jobj [("fontSize", .jstr "14px"), ("color", .jstr TEXT_COLOR),
        ("fontWeight", .jstr "bold"), ("fontFamily", .jstr FONT_FAMILY)])]])],
    .jobj [("textRuns", .jarr [.jobj [
      ("value", .jstr "オンライン手続できる自治体の割合"),
      ("textStyle", .jobj [("fontSize", .jstr "14px"), ("color", .jstr TEXT_COLOR),
        ("fontWeight", .jstr "bold"), ("fontFamily", .jstr FONT_FAMILY)])]])]])]

def p2_kpi_label_paragraphs : JVal :=
  .jobj [("paragraphs", .jarr [.jobj [
    ("textRuns", .jarr [.jobj [
      ("value", .jstr "オンライン化が完了した自治体数／全自治体数"),
      ("textStyle", .jobj [("fontSize", .jstr "11px"),
        ("color", .jstr TEXT_SECONDARY), ("fontFamily", .jstr FONT_FAMILY)])]])]])]

def p2_slash_paragraphs : JVal :=
  .jobj [("paragraphs", .jarr [.jobj [
    ("textRuns", .jarr [.jobj [
      ("value", .jstr "／"),
      ("textStyle", .jobj [("fontSize", .jstr "20px"), ("color", .jstr TEXT_COLOR),
        ("fontFamily", .jstr FONT_FAMILY)])]])]])]

/-- Matrix (pivotTable) config of page 2 — cross-tab. -/
def p2_matrix_config : JVal :=
  .jobj [
    ("name", .jstr "vc_p2_matrix"),
    ("layouts", .jarr [.jobj [("id", .jnat 0),
      ("position", position 360 20 0 1540 1000 0)]]),
    ("singleVisual", .jobj [
      ("visualType", .jstr "pivotTable"),
      ("projections", .jobj [
        ("Rows", .jarr [
          .jobj [("queryRef", .jstr "o.サブカテゴリ")],
          .jobj [("queryRef", .jstr "o.手続名")]]),
        ("Columns", .jarr [
          .jobj [("queryRef", .jstr "o.団体名")]]),
        ("Values", .jarr [
          .jobj [("queryRef", .jstr "o.ステータス表示")]])]),
      ("prototypeQuery", .jobj [
        ("Version", .jnat 2),
        ("From", .jarr [.jobj [("Name", .jstr "o"),
          ("Entity", .jstr "オンライン化状況"), ("Type", .jnat 0)]]),
        ("Select", .jarr [
          .jobj [
            ("Column", .jobj [
              ("Expression", .jobj [("SourceRef", .jobj [("Source", .jstr "o")])]),
              ("Property", .jstr "サブカテゴリ")]),
            ("Name", .jstr "o.サブカテゴリ")],
          .jobj [
            ("Column", .jobj [
              ("Expression", .jobj [("SourceRef", .jobj [("Source", .jstr "o")])]),
              ("Property", .jstr "手続名")]),
            ("Name", .jstr "o.手続名")],
          .jobj [
            ("Column", .jobj [
              ("Expression", .jobj [("SourceRef", .jobj [("Source", .jstr "o")])]),
              ("Property", .jstr "団体名")]),
            ("Name", .jstr "o.団体名")],
          .jobj [
            ("Measure", .jobj [
              ("Expression", .jobj [("SourceRef", .jobj [("Source", .jstr "o")])]),
              ("Property", .jstr "ステータス表示")]),
            ("Name", .jstr "o.ステータス表示")]])]),
      ("objects", matrix_objects_base),
      ("vcObjects", matrix_vc_objects)])]

def p2_legend_paragraphs : JVal :=
  .jobj [("paragraphs", .jarr [.jobj [
    ("textRuns", .jarr [
      .jobj [("value", .jstr "●"), ("textStyle", .jobj [("fontSize", .jstr "12px"),
        ("color", .jstr COMPLETED_COLOR), ("fontFamily", .jstr FONT_FAMILY)])],
      .jobj [("value", .jstr " オンライン手続できる　"), ("textStyle", .jobj [
        ("fontSize", .jstr "12px"), ("color", .jstr TEXT_SECONDARY),
        ("fontFamily", .jstr FONT_FAMILY)])],
      .jobj [("value", .jstr "●"), ("textStyle", .jobj [("fontSize", .jstr "12px"),
        ("color", .jstr INCOMPLETE_GRAY), ("fontFamily", .jstr FONT_FAMILY)])],
      .jobj [("value", .jstr " オンライン手続できない　"), ("textStyle", .jobj [
        ("fontSize", .jstr "12px"), ("color", .jstr TEXT_SECONDARY),
        ("fontFamily", .jstr FONT_FAMILY)])],
      .jobj [("value", .jstr "ー 該当する手続がない"), ("textStyle", .jobj [
        ("fontSize", .jstr "12px"), ("color", .jstr TEXT_SECONDARY),
        ("fontFamily", .jstr FONT_FAMILY)])]])]])]

def p2_date_paragraphs : JVal :=
  .jobj [("paragraphs", .jarr [.jobj [
    ("textRuns", .jarr [.jobj [
      ("value", .jstr "令和６年度末時点"),
      ("textStyle", .jobj [("fontSize", .jstr "11px"), ("color", .jstr TEXT_MUTED),
        ("fontFamily", .jstr FONT_FAMILY)])]]),
    ("horizontalTextAlignment", .jstr "right")]])]

/-- The ordered visual-container list of page 2, in `visuals.append` order. -/
def page2_visuals : List JVal :=
  [make_visual_container p2_back_config (.jarr []) 20 20 240 30 0,
   make_textbox "vc_p2_org" 1740 24 160 36 0 p2_org_paragraphs none,
   make_shape "vc_p2_left_bg" 20 60 320 620 0,
   make_slicer "vc_p2_slicer_pref" 35 75 290 55 1 "都道府県" "都道府県で絞り込む",
   make_slicer "vc_p2_slicer_muni" 35 145 290 55 1 "団体名" "団体名で絞り込む",
   make_textbox "vc_p2_subtitle" 35 215 290 50 1 p2_subtitle_paragraphs none,
   make_donut "vc_p2_donut" 70 280 220 220 1 28 none,
   make_textbox "vc_p2_kpi_label" 35 520 290 22 1 p2_kpi_label_paragraphs none,
   make_card "vc_p2_kpi_completed" 60 548 110 50 1 "子育て介護26手続完了自治体数" 24 none,
   make_textbox "vc_p2_slash" 170 554 24 38 1 p2_slash_paragraphs none,
   make_card "vc_p2_kpi_total" 194 548 110 50 1 "自治体数" 24 none,
   make_visual_container p2_matrix_config (.jarr []) 360 20 1540 1000 0,
   make_textbox "vc_p2_legend" 360 1030 700 25 0 p2_legend_paragraphs none,
   make_textbox "vc_p2_date" 1620 1045 280 25 0 p2_date_paragraphs none]

def build_page2 : JVal :=
  .jobj [
    ("config", .jstr (dumpsStr page2_config)),
    ("displayName", .jstr "市区町村詳細"),
    ("displayOption", .jnat 1),
    ("filters", .jstr (dumpsStr page2_filters)),
    ("height", .jflt PAGE_HEIGHT),
    ("name", .jstr "ReportSection_page2"),
    ("ordinal", .jnat 1),
    ("visualContainers", .jarr page2_visuals),
    ("width", .jflt PAGE_WIDTH)]

-- REPORT-LEVEL CONFIG

def report_config : JVal :=
  .jobj [
    ("version", .jstr "5.44"),
    ("themeCollection", .jobj [
      ("baseTheme", .jobj [("name", .jstr "CY23SU08"),
        ("version", .jstr "5.46"), ("type", .jnat 2)]),
      ("customTheme", .jobj [
        ("name", .jstr "Digital_Agency_Dashboard_Desig3362615343750506.json"),
        ("version", .jstr "5.46"),
        ("type", .jnat 1)])]),
    ("activeSectionIndex", .jnat 0),
    ("defaultDrillFilterOtherVisuals", .jbool true),
    ("linguisticSchemaSyncVersion", .jnat 2),
    ("settings", .jobj [
      ("useNewFilterPaneExperience", .jbool true),
      ("allowChangeFilterTypes", .jbool true),
      ("useStylableVisualContainerHeader", .jbool true),
      ("queryLimitOption", .jnat 6),
      ("useEnhancedTooltips", .jbool true),
      ("exportDataMode", .jnat 1),
      ("useDefaultAggregateDisplayName", .jbool true)])]

def resource_packages : JVal :=
  .jarr [
    .jobj [("resourcePackage", .jobj [
      ("disabled", .jbool false),
      ("items", .jarr [.jobj [("name", .jstr "CY23SU08"),
        ("path", .jstr "BaseThemes/CY23SU08.json"), ("type", .jnat 202)]]),
      ("name", .jstr "SharedResources"),
      ("type", .jnat 2)])],
    .jobj [("resourcePackage", .jobj [
      ("disabled", .jbool false),
      ("items", .jarr [.jobj [
        ("name", .jstr "Digital_Agency_Dashboard_Desig3362615343750506.json"),
        ("path", .jstr "Digital_Agency_Dashboard_Desig3362615343750506.json"),
        ("type", .jnat 201)]]),
      ("name", .jstr "RegisteredResources"),
      ("type", .jnat 1)])]]

def build_report : JVal :=
  .jobj [
    ("config", .jstr (dumpsStr report_config)),
    ("layoutOptimization", .jnat 0),
    ("resourcePackages", resource_packages),
    ("sections", .jarr [build_page1, build_page2]),
    ("theme", .jstr "Digital_Agency_Dashboard_Desig3362615343750506.json")]

end Report

/-! ## Accessors over the built document, and the `main` model -/

namespace JVal

def lookupField : List (String × JVal) → String → Option JVal
  | [], _ => none
  | (k, x) :: rest, key => if k = key then some x else lookupField rest key

/-- Dict lookup (`obj[key]`) on an object value. -/
def getField (v : JVal) (key : String) : Option JVal :=
  match v with
  | .jobj ps => lookupField ps key
  | _ => none

def getPath : JVal → List String → Option JVal
  | v, [] => some v
  | v, k :: ks =>
    match getField v k with
    | none => none
    | some w => getPath w ks

/-- `report["sections"]`. -/
def sectionsOf (report : JVal) : List JVal :=
  match getField report "sections" with
  | some (.jarr xs) => xs
  | _ => []

/-- `page["visualContainers"]`. -/
def visualContainersOf (page : JVal) : List JVal :=
  match getField page "visualContainers" with
  | some (.jarr xs) => xs
  | _ => []

/-- Every visual container of every page of the report. -/
def allVisualContainers (report : JVal) : List JVal :=
  (sectionsOf report).flatMap visualContainersOf

/-- Parse a visual container's embedded `config` blob. -/
def configOf (vc : JVal) : Option JVal :=
  match getField vc "config" with
  | some (.jstr s) => parseTop s
  | _ => none

/-- The `name` of a visual container's parsed config. -/
def nameOf (vc : JVal) : Option String :=
  match configOf vc with
  | some cfg =>
    match getField cfg "name" with
    | some (.jstr s) => some s
    | _ => none
  | none => none

/-- A `From` entry's type tag equals 0 ("table"). -/
def typeIsZero (e : JVal) : Bool :=
  match getField e "Type" with
  | some (.jnat 0) => true
  | _ => false

/-- The query-shape invariant on a `prototypeQuery`: `Version == 2`, `From`
present and non-empty with every entry's `Type == 0`, `Select` present and
non-empty. -/
def protoQueryOk (pq : JVal) : Bool :=
  (match getField pq "Version" with
   | some (.jnat 2) => true
   | _ => false) &&
  (match getField pq "From" with
   | some (.jarr (e :: es)) => (e :: es).all typeIsZero
   | _ => false) &&
  (match getField pq "Select" with
   | some (.jarr (_ :: _)) => true
   | _ => false)

/-- The invariant on a visual config: if it carries a
`singleVisual.prototypeQuery`, that query is well-shaped. -/
def cfgQueryOk (cfg : JVal) : Bool :=
  match getPath cfg ["singleVisual", "prototypeQuery"] with
  | none => true
  | some pq => protoQueryOk pq

/-- `Select[i].Name` for each entry of a config's `prototypeQuery.Select`. -/
def selectNames (cfg : JVal) : List (Option JVal) :=
  match getPath cfg ["singleVisual", "prototypeQuery", "Select"] with
  | some (.jarr es) => es.map (fun e => getField e "Name")
  | _ => []

end JVal

namespace Report

/-- Model of `main` after `build_report`: serialize with `indent=2`, re-parse
(`json.loads` raises on failure), validate every embedded blob, and only then
return the text that is written to the output file.  A `.error` outcome means
the run raises before the `open(...)`/`write` step, so no file is created or
modified. -/
def run_main (report : JVal) : Except String (List Char) :=
  let json_str := JVal.dumps (some 0) report
  match JVal.parseTop (String.mk json_str) with
  | none => .error "json.loads failed"
  | some validated =>
    match JVal.validate_embedded_json validated "root" with
    | .error e => .error e
    | .ok () => .ok json_str

/-- The exact character sequence `main` writes to `report.json`. -/
def report_text : List Char := JVal.dumps (some 0) build_report

end Report

example : JVal.dumpsStr (.jarr []) = "[]" := by
  simp [JVal.dumpsStr, JVal.dumps]

example : JVal.dumpsStr (.jobj [("a", .jnat 12), ("b", .jflt 3)]) =
    "\x7b\"a\": 12, \"b\": 3.0\x7d" := by
  simp [JVal.dumpsStr, JVal.dumps, JVal.dumpsMember, JVal.dumpsObjTail,
    JVal.escStr, JVal.escChar, JVal.natChars, JVal.natCharsAux]
  rfl


/-! ## Facts about the individual builders -/

namespace Report

open JVal

theorem allVCs_build_report :
    allVisualContainers build_report = page1_visuals ++ page2_visuals := rfl

theorem configOf_mvc (cfg fl : JVal) (x y w h z : Nat) :
    configOf (make_visual_container cfg fl x y w h z) = some cfg :=
  parseTop_dumpsStr cfg

theorem configOf_textbox (nm : String) (x y w h z : Nat) (p : JVal)
    (o : Option JVal) :
    configOf (make_textbox nm x y w h z p o) =
      some (make_textbox_config nm x y w h z p o) :=
  parseTop_dumpsStr _

theorem configOf_card (nm : String) (x y w h z : Nat) (m : String) (fs : Nat)
    (o : Option JVal) :
    configOf (make_card nm x y w h z m fs o) =
      some (make_card_config nm x y w h z m fs o) :=
  parseTop_dumpsStr _

theorem configOf_shape (nm : String) (x y w h z : Nat) :
    configOf (make_shape nm x y w h z) =
      some (make_shape_config nm x y w h z PAGE_BG CARD_BORDER_COLOR 1
        BORDER_RADIUS) :=
  parseTop_dumpsStr _

theorem configOf_donut (nm : String) (x y w h z fs : Nat) (o : Option JVal) :
    configOf (make_donut nm x y w h z fs o) =
      some (make_donut_config nm x y w h z fs o) :=
  parseTop_dumpsStr _

theorem configOf_slicer (nm : String) (x y w h z : Nat) (col ttl : String) :
    configOf (make_slicer nm x y w h z col ttl) =
      some (make_slicer_config nm x y w h z col ttl) :=
  parseTop_dumpsStr _

theorem cfgQueryOk_textbox (nm : String) (x y w h z : Nat) (p : JVal)
    (o : Option JVal) :
    cfgQueryOk (make_textbox_config nm x y w h z p o) = true := rfl

theorem cfgQueryOk_card (nm : String) (x y w h z : Nat) (m : String) (fs : Nat)
    (o : Option JVal) :
    cfgQueryOk (make_card_config nm x y w h z m fs o) = true := rfl

theorem cfgQueryOk_shape (nm : String) (x y w h z : Nat)
    (fc lc : String) (wt re : Nat) :
    cfgQueryOk (make_shape_config nm x y w h z fc lc wt re) = true := rfl

theorem cfgQueryOk_donut (nm : String) (x y w h z fs : Nat) (o : Option JVal) :
    cfgQueryOk (make_donut_config nm x y w h z fs o) = true := rfl

theorem cfgQueryOk_slicer (nm : String) (x y w h z : Nat) (col ttl : String) :
    cfgQueryOk (make_slicer_config nm x y w h z col ttl) = true := rfl

theorem cfgQueryOk_p1_matrix : cfgQueryOk p1_matrix_config = true := rfl

theorem cfgQueryOk_p2_matrix : cfgQueryOk p2_matrix_config = true := rfl

theorem cfgQueryOk_back : cfgQueryOk p2_back_config = true := rfl

theorem filters_mvc (cfg : JVal) (x y w h z : Nat) :
    getField (make_visual_container cfg (.jarr []) x y w h z) "filters" =
      some (.jstr "[]") := rfl

theorem filters_textbox (nm : String) (x y w h z : Nat) (p : JVal)
    (o : Option JVal) :
    getField (make_textbox nm x y w h z p o) "filters" =
      some (.jstr "[]") := rfl

theorem filters_card (nm : String) (x y w h z : Nat) (m : String) (fs : Nat)
    (o : Option JVal) :
    getField (make_card nm x y w h z m fs o) "filters" =
      some (.jstr "[]") := rfl

theorem filters_shape (nm : String) (x y w h z : Nat) :
    getField (make_shape nm x y w h z) "filters" = some (.jstr "[]") := rfl

theorem filters_donut (nm : String) (x y w h z fs : Nat) (o : Option JVal) :
    getField (make_donut nm x y w h z fs o) "filters" =
      some (.jstr "[]") := rfl

theorem filters_slicer (nm : String) (x y w h z : Nat) (col ttl : String) :
    getField (make_slicer nm x y w h z col ttl) "filters" =
      some (.jstr "[]") := rfl

end Report


/-! ## Claims -/

open JVal

/-- C9 is modelled from the spec: the per-entity (prefecture-card) grid layout
belongs to a later variant of the script that is not in the sources; the spec
gives the formula `row = index div columns, col = index mod columns`,
`pos = origin + (col * (w + gap), row * (h + gap))`. -/
def gridPos (gridX gridY C w h g i : Nat) : Nat × Nat :=
  (gridX + (i % C) * (w + g), gridY + (i / C) * (h + g))

/-- Two `w × h` rectangles placed at `p` and `q` overlap (open interiors
intersect). -/
def rectsOverlap (p q : Nat × Nat) (w h : Nat) : Prop :=
  p.1 < q.1 + w ∧ q.1 < p.1 + w ∧ p.2 < q.2 + h ∧ q.2 < p.2 + h

/-- C4: building the card bound to the measure "自治体数" (the
`vc_p1_kpi_total` call in `build_page1`) yields a visual container of the
built report whose parsed config has `singleVisual.visualType == "card"`,
`prototypeQuery.Select[0].Name == "o.自治体数"`, and the matching
`projections` queryRef. -/
theorem claim_C4_card_scenario :
    Report.make_card "vc_p1_kpi_total" 240 510 130 55 1 "自治体数" 28 none
      ∈ allVisualContainers Report.build_report ∧
    configOf (Report.make_card "vc_p1_kpi_total" 240 510 130 55 1 "自治体数" 28 none) =
      some (Report.make_card_config "vc_p1_kpi_total" 240 510 130 55 1 "自治体数" 28 none) ∧
    getPath (Report.make_card_config "vc_p1_kpi_total" 240 510 130 55 1 "自治体数" 28 none)
      ["singleVisual", "visualType"] = some (.jstr "card") ∧
    (selectNames (Report.make_card_config "vc_p1_kpi_total" 240 510 130 55 1 "自治体数" 28 none)).head?
      = some (some (.jstr "o.自治体数")) ∧
    getPath (Report.make_card_config "vc_p1_kpi_total" 240 510 130 55 1 "自治体数" 28 none)
      ["singleVisual", "projections", "Values"] =
      some (.jarr [.jobj [("queryRef", .jstr "o.自治体数")]]) := by
  refine ⟨?_, Report.configOf_card _ _ _ _ _ _ _ _ _, rfl, rfl, rfl⟩
  rw [Report.allVCs_build_report]
  apply List.mem_append_left
  rw [Report.page1_visuals]
  exact List.mem_cons_of_mem _ (List.mem_cons_of_mem _ (List.mem_cons_of_mem _
    (List.mem_cons_of_mem _ (List.mem_cons_of_mem _ (List.mem_cons_of_mem _
    (List.mem_cons_of_mem _ (List.mem_cons_of_mem _ (List.mem_cons_self ..))))))))

/-- C5: the page-level filter of page 2 restricting サブカテゴリ serializes as
a filter of type "Categorical" whose `Where` condition is an `In` condition
whose `Values` list is exactly the two quoted literals 'ア.子育て関係' and
'イ.介護関係'. -/
theorem claim_C5_page_filter :
    getField Report.build_page2 "filters" =
      some (.jstr (dumpsStr Report.page2_filters)) ∧
    parseTop (dumpsStr Report.page2_filters) = some Report.page2_filters ∧
    ∃ f : JVal,
      Report.page2_filters = .jarr [f] ∧
      getField f "type" = some (.jstr "Categorical") ∧
      ∃ w : JVal,
        getPath f ["filter", "Where"] = some (.jarr [w]) ∧
        getPath w ["Condition", "In", "Values"] = some (.jarr [
          .jarr [.jobj [("Literal", .jobj [("Value",
            .jstr (Report.sq ++ "ア.子育て関係" ++ Report.sq))])]],
          .jarr [.jobj [("Literal", .jobj [("Value",
            .jstr (Report.sq ++ "イ.介護関係" ++ Report.sq))])]]]) := by
  exact ⟨rfl, parseTop_dumpsStr _, ⟨_, rfl, rfl, ⟨_, rfl, rfl⟩⟩⟩

/-- C6: serializing the built Report Document exactly as `main` does
(`json.dumps(..., ensure_ascii=False, indent=2)`) and re-parsing the text
recovers the document unchanged — no information loss and no corruption of
the non-ASCII (Japanese) text. -/
theorem claim_C6_roundtrip :
    parseTop (String.mk (JVal.dumps (some 0) Report.build_report)) =
      some Report.build_report :=
  parseTop_dumps (some 0) Report.build_report

/-- C7: the build is deterministic — the serialized output is a pure function
of the (static) program, so any two runs produce the identical character
sequence. -/
theorem claim_C7_determinism :
    ∀ out1 out2 : List Char,
      out1 = Report.report_text → out2 = Report.report_text → out1 = out2 := by
  intro out1 out2 h1 h2
  rw [h1, h2]

theorem claim_C7_determinism_witness :
    Report.report_text = Report.report_text :=
  claim_C7_determinism Report.report_text Report.report_text rfl rfl

/-- C9: in the spec-modelled grid layout (fixed column count `C`, cell
`w × h`, gap `g`), card `i` sits at
`(gridX + (i mod C)*(w+g), gridY + (i div C)*(h+g))`, and two distinct cards
never overlap. -/
theorem claim_C9_grid (gridX gridY C w h g i j : Nat) (hC : 0 < C)
    (hij : i ≠ j) :
    gridPos gridX gridY C w h g i =
      (gridX + (i % C) * (w + g), gridY + (i / C) * (h + g)) ∧
    ¬ rectsOverlap (gridPos gridX gridY C w h g i)
      (gridPos gridX gridY C w h g j) w h := by
  refine ⟨rfl, ?_⟩
  rintro ⟨h1, h2, h3, h4⟩
  simp only [gridPos, rectsOverlap] at h1 h2 h3 h4
  have hi := Nat.div_add_mod i C
  have hj := Nat.div_add_mod j C
  rcases Nat.lt_trichotomy (i / C) (j / C) with hr | hr | hr
  · have hk : (i / C + 1) * (h + g) ≤ (j / C) * (h + g) :=
      Nat.mul_le_mul_right _ (Nat.succ_le_of_lt hr)
    rw [Nat.succ_mul] at hk
    set X := (i / C) * (h + g)
    set Y := (j / C) * (h + g)
    omega
  · have hC2 : C * (i / C) = C * (j / C) := by rw [hr]
    have hm : i % C ≠ j % C := by
      intro he
      apply hij
      omega
    rcases Nat.lt_trichotomy (i % C) (j % C) with hm2 | hm2 | hm2
    · have hk : (i % C + 1) * (w + g) ≤ (j % C) * (w + g) :=
        Nat.mul_le_mul_right _ (Nat.succ_le_of_lt hm2)
      rw [Nat.succ_mul] at hk
      set X := (i % C) * (w + g)
      set Y := (j % C) * (w + g)
      omega
    · exact hm hm2
    · have hk : (j % C + 1) * (w + g) ≤ (i % C) * (w + g) :=
        Nat.mul_le_mul_right _ (Nat.succ_le_of_lt hm2)
      rw [Nat.succ_mul] at hk
      set X := (i % C) * (w + g)
      set Y := (j % C) * (w + g)
      omega
  · have hk : (j / C + 1) * (h + g) ≤ (i / C) * (h + g) :=
      Nat.mul_le_mul_right _ (Nat.succ_le_of_lt hr)
    rw [Nat.succ_mul] at hk
    set X := (i / C) * (h + g)
    set Y := (j / C) * (h + g)
    omega

theorem claim_C9_grid_witness :
    gridPos 40 100 8 180 110 20 0 =
      (40 + (0 % 8) * (180 + 20), 100 + (0 / 8) * (110 + 20)) ∧
    ¬ rectsOverlap (gridPos 40 100 8 180 110 20 0)
      (gridPos 40 100 8 180 110 20 1) 180 110 :=
  claim_C9_grid 40 100 8 180 110 20 0 1 (by decide) (by decide)


/-- C3: every visual container of the built report whose parsed config blob
carries a `prototypeQuery` has `Version == 2`, non-empty `From` and `Select`
clauses, and every `From` entry's `Type == 0`. -/
theorem claim_C3_query_shape :
    ∀ vc ∈ allVisualContainers Report.build_report,
      ∀ cfg, configOf vc = some cfg → cfgQueryOk cfg = true := by
  intro vc hvc
  rw [Report.allVCs_build_report, Report.page1_visuals, Report.page2_visuals] at hvc
  simp only [List.mem_append, List.mem_cons, List.not_mem_nil, or_false] at hvc
  rcases hvc with (rfl | rfl | rfl | rfl | rfl | rfl | rfl | rfl | rfl | rfl |
    rfl | rfl) | (rfl | rfl | rfl | rfl | rfl | rfl | rfl | rfl | rfl | rfl |
    rfl | rfl | rfl | rfl)
  · intro cfg hcfg
    rw [Report.configOf_textbox] at hcfg
    obtain rfl := Option.some.inj hcfg
    apply Report.cfgQueryOk_textbox
  · intro cfg hcfg
    rw [Report.configOf_textbox] at hcfg
    obtain rfl := Option.some.inj hcfg
    apply Report.cfgQueryOk_textbox
  · intro cfg hcfg
    rw [Report.configOf_shape] at hcfg
    obtain rfl := Option.some.inj hcfg
    apply Report.cfgQueryOk_shape
  · intro cfg hcfg
    rw [Report.configOf_textbox] at hcfg
    obtain rfl := Option.some.inj hcfg
    apply Report.cfgQueryOk_textbox
  · intro cfg hcfg
    rw [Report.configOf_donut] at hcfg
    obtain rfl := Option.some.inj hcfg
    apply Report.cfgQueryOk_donut
  · intro cfg hcfg
    rw [Report.configOf_textbox] at hcfg
    obtain rfl := Option.some.inj hcfg
    apply Report.cfgQueryOk_textbox
  · intro cfg hcfg
    rw [Report.configOf_card] at hcfg
    obtain rfl := Option.some.inj hcfg
    apply Report.cfgQueryOk_card
  · intro cfg hcfg
    rw [Report.configOf_textbox] at hcfg
    obtain rfl := Option.some.inj hcfg
    apply Report.cfgQueryOk_textbox
  · intro cfg hcfg
    rw [Report.configOf_card] at hcfg
    obtain rfl := Option.some.inj hcfg
    apply Report.cfgQueryOk_card
  · intro cfg hcfg
    rw [Report.configOf_textbox] at hcfg
    obtain rfl := Option.some.inj hcfg
    apply Report.cfgQueryOk_textbox
  · intro cfg hcfg
    rw [Report.configOf_mvc] at hcfg
    obtain rfl := Option.some.inj hcfg
    exact Report.cfgQueryOk_p1_matrix
  · intro cfg hcfg
    rw [Report.configOf_textbox] at hcfg
    obtain rfl := Option.some.inj hcfg
    apply Report.cfgQueryOk_textbox
  · intro cfg hcfg
    rw [Report.configOf_mvc] at hcfg
    obtain rfl := Option.some.inj hcfg
    exact Report.cfgQueryOk_back
  · intro cfg hcfg
    rw [Report.configOf_textbox] at hcfg
    obtain rfl := Option.some.inj hcfg
    apply Report.cfgQueryOk_textbox
  · intro cfg hcfg
    rw [Report.configOf_shape] at hcfg
    obtain rfl := Option.some.inj hcfg
    apply Report.cfgQueryOk_shape
  · intro cfg hcfg
    rw [Report.configOf_slicer] at hcfg
    obtain rfl := Option.some.inj hcfg
    apply Report.cfgQueryOk_slicer
  · intro cfg hcfg
    rw [Report.configOf_slicer] at hcfg
    obtain rfl := Option.some.inj hcfg
    apply Report.cfgQueryOk_slicer
  · intro cfg hcfg
    rw [Report.configOf_textbox] at hcfg
    obtain rfl := Option.some.inj hcfg
    apply Report.cfgQueryOk_textbox
  · intro cfg hcfg
    rw [Report.configOf_donut] at hcfg
    obtain rfl := Option.some.inj hcfg
    apply Report.cfgQueryOk_donut
  · intro cfg hcfg
    rw [Report.configOf_textbox] at hcfg
    obtain rfl := Option.some.inj hcfg
    apply Report.cfgQueryOk_textbox
  · intro cfg hcfg
    rw [Report.configOf_card] at hcfg
    obtain rfl := Option.some.inj hcfg
    apply Report.cfgQueryOk_card
  · intro cfg hcfg
    rw [Report.configOf_textbox] at hcfg
    obtain rfl := Option.some.inj hcfg
    apply Report.cfgQueryOk_textbox
  · intro cfg hcfg
    rw [Report.configOf_card] at hcfg
    obtain rfl := Option.some.inj hcfg
    apply Report.cfgQueryOk_card
  · intro cfg hcfg
    rw [Report.configOf_mvc] at hcfg
    obtain rfl := Option.some.inj hcfg
    exact Report.cfgQueryOk_p2_matrix
  · intro cfg hcfg
    rw [Report.configOf_textbox] at hcfg
    obtain rfl := Option.some.inj hcfg
    apply Report.cfgQueryOk_textbox
  · intro cfg hcfg
    rw [Report.configOf_textbox] at hcfg
    obtain rfl := Option.some.inj hcfg
    apply Report.cfgQueryOk_textbox

theorem claim_C3_query_shape_witness :
    cfgQueryOk (Report.make_card_config "vc_p1_kpi_total" 240 510 130 55 1
      "自治体数" 28 none) = true := by
  apply claim_C3_query_shape
    (Report.make_card "vc_p1_kpi_total" 240 510 130 55 1 "自治体数" 28 none)
  · rw [Report.allVCs_build_report]
    apply List.mem_append_left
    rw [Report.page1_visuals]
    exact List.mem_cons_of_mem _ (List.mem_cons_of_mem _ (List.mem_cons_of_mem _
      (List.mem_cons_of_mem _ (List.mem_cons_of_mem _ (List.mem_cons_of_mem _
      (List.mem_cons_of_mem _ (List.mem_cons_of_mem _ (List.mem_cons_self ..))))))))
  · exact Report.configOf_card _ _ _ _ _ _ _ _ _

/-- C10 (implicit): every visual container of the built report stores
`"[]"` — the serialization of the empty list — as its `filters` blob: no
builder attaches a visual-level filter. -/
theorem claim_C10_empty_visual_filters :
    ∀ vc ∈ allVisualContainers Report.build_report,
      getField vc "filters" = some (.jstr "[]") := by
  intro vc hvc
  rw [Report.allVCs_build_report, Report.page1_visuals, Report.page2_visuals] at hvc
  simp only [List.mem_append, List.mem_cons, List.not_mem_nil, or_false] at hvc
  rcases hvc with (rfl | rfl | rfl | rfl | rfl | rfl | rfl | rfl | rfl | rfl |
    rfl | rfl) | (rfl | rfl | rfl | rfl | rfl | rfl | rfl | rfl | rfl | rfl |
    rfl | rfl | rfl | rfl)
  · apply Report.filters_textbox
  · apply Report.filters_textbox
  · apply Report.filters_shape
  · apply Report.filters_textbox
  · apply Report.filters_donut
  · apply Report.filters_textbox
  · apply Report.filters_card
  · apply Report.filters_textbox
  · apply Report.filters_card
  · apply Report.filters_textbox
  · apply Report.filters_mvc
  · apply Report.filters_textbox
  · apply Report.filters_mvc
  · apply Report.filters_textbox
  · apply Report.filters_shape
  · apply Report.filters_slicer
  · apply Report.filters_slicer
  · apply Report.filters_textbox
  · apply Report.filters_donut
  · apply Report.filters_textbox
  · apply Report.filters_card
  · apply Report.filters_textbox
  · apply Report.filters_card
  · apply Report.filters_mvc
  · apply Report.filters_textbox
  · apply Report.filters_textbox

theorem claim_C10_empty_visual_filters_witness :
    getField (Report.make_donut "vc_p1_donut" 100 180 280 280 1 36 none)
      "filters" = some (.jstr "[]") := by
  apply claim_C10_empty_visual_filters
  rw [Report.allVCs_build_report]
  apply List.mem_append_left
  rw [Report.page1_visuals]
  exact List.mem_cons_of_mem _ (List.mem_cons_of_mem _ (List.mem_cons_of_mem _
    (List.mem_cons_of_mem _ (List.mem_cons_self ..))))


/-- A document with two unparseable embedded blobs (both `"["`, which
`json.loads` rejects): one under `a.config`, one under `b.filters`. -/
def two_defect_doc : JVal :=
  .jobj [("a", .jobj [("config", .jstr "[")]),
         ("b", .jobj [("filters", .jstr "[")])]

/-- C1 counterexample: on a document with defects in two places, the
validator raises (returns an error) naming only the first defect in
traversal order — it does not accumulate the violations into a returned
list, and one run does not report all defects at once. -/
theorem claim_C1_counterexample :
    parseTop "[" = none ∧
    getPath two_defect_doc ["a", "config"] = some (.jstr "[") ∧
    getPath two_defect_doc ["b", "filters"] = some (.jstr "[") ∧
    validate_embedded_json two_defect_doc "root" =
      .error "Invalid embedded JSON at root.a.config" := by
  exact ⟨rfl, rfl, rfl, rfl⟩

/-- C1 amended: the validator checks exactly one thing — that every string
stored under a `config`/`filters` key anywhere in the tree parses as JSON —
and it raises a `ValueError` at the first violation instead of accumulating;
it succeeds precisely when every embedded blob parses.  (It performs no
missing-field, name-collision or query-tag checks.) -/
theorem claim_C1_amended :
    ∀ (v : JVal) (path : String),
      validate_embedded_json v path = .ok () ↔ allBlobs v = true :=
  validate_ok_iff_allBlobs

/-- A report document containing two card visual containers whose config
blobs share the same `name`. -/
def dup_report_named (nm : String) : JVal :=
  .jobj [("sections", .jarr [.jobj [
    ("visualContainers", .jarr [
      Report.make_card nm 80 510 130 55 1 "自治体数" 28 none,
      Report.make_card nm 240 510 130 55 1 "自治体数" 28 none])]])]

set_option maxRecDepth 400000 in
/-- C2 counterexample: a document with two visual containers whose parsed
configs carry the same `name` ("vc_dup") validates **successfully** — the
validator returns no error at all, rather than a non-empty error list with a
duplicate-name violation. -/
theorem claim_C2_counterexample :
    allVisualContainers (dup_report_named "vc_dup") =
      [Report.make_card "vc_dup" 80 510 130 55 1 "自治体数" 28 none,
       Report.make_card "vc_dup" 240 510 130 55 1 "自治体数" 28 none] ∧
    nameOf (Report.make_card "vc_dup" 80 510 130 55 1 "自治体数" 28 none) =
      some "vc_dup" ∧
    nameOf (Report.make_card "vc_dup" 240 510 130 55 1 "自治体数" 28 none) =
      some "vc_dup" ∧
    validate_embedded_json (dup_report_named "vc_dup") "root" = .ok () := by
  refine ⟨rfl, by rfl, by rfl, by rfl⟩

/-- C2 amended: validating a document with two visual containers sharing the
same `name` succeeds silently for **every** shared name: the validator only
requires the embedded blobs to parse and performs no duplicate-name check. -/
theorem claim_C2_amended (nm : String) :
    validate_embedded_json (dup_report_named nm) "root" = .ok () := by
  rw [validate_ok_iff_allBlobs]
  simp only [dup_report_named, Report.make_card, Report.make_visual_container,
    allBlobs_jobj, allBlobs_jarr, allBlobs_jstr, allBlobs_jflt,
    allBlobsFields_cons, allBlobsFields_nil, allBlobsItems_cons,
    allBlobsItems_nil, isStrV, strOf, parseTop_dumpsStr]
  simp

theorem claim_C2_amended_witness :
    validate_embedded_json (dup_report_named "vc_p1_kpi_completed") "root" =
      .ok () :=
  claim_C2_amended "vc_p1_kpi_completed"

/-- C8: `main` performs the full validation (top-level re-parse and the
recursive embedded-blob walk) in memory before any filesystem I/O: a run
yields the output text only when both steps succeeded, and if validation
fails the run aborts with that error, producing no file content. -/
theorem claim_C8_validate_before_write (r : JVal) :
    (∀ out, Report.run_main r = .ok out →
      out = JVal.dumps (some 0) r ∧
      ∃ v, parseTop (String.mk (JVal.dumps (some 0) r)) = some v ∧
        validate_embedded_json v "root" = .ok ()) ∧
    (∀ v e, parseTop (String.mk (JVal.dumps (some 0) r)) = some v →
      validate_embedded_json v "root" = .error e →
      Report.run_main r = .error e) := by
  constructor
  · intro out hout
    rw [Report.run_main] at hout
    cases hp : parseTop (String.mk (JVal.dumps (some 0) r)) with
    | none => rw [hp] at hout; cases hout
    | some v =>
      rw [hp] at hout
      dsimp only at hout
      cases hv : validate_embedded_json v "root" with
      | error e => rw [hv] at hout; cases hout
      | ok u =>
        cases u
        rw [hv] at hout
        dsimp only at hout
        cases hout
        exact ⟨rfl, v, rfl, hv⟩
  · intro v e hp hv
    rw [Report.run_main, hp]
    dsimp only
    rw [hv]

/-- A document whose only `config` blob is the unparseable string `"["`. -/
def bad_blob_doc : JVal := .jobj [("config", .jstr "[")]

theorem claim_C8_validate_before_write_witness :
    Report.run_main bad_blob_doc = .error "Invalid embedded JSON at root.config" :=
  (claim_C8_validate_before_write bad_blob_doc).2 bad_blob_doc
    "Invalid embedded JSON at root.config"
    (parseTop_dumps (some 0) bad_blob_doc) (by rfl)
